import Mathlib

/-!
Verification of the csgb-targets metrics core: a shallow embedding of the
fiscal-calendar utilities (fy.js), the per-order financial calculations
(calculations.js), the RAG threshold classifier (rag.js), the dashboard
aggregation engine (aggregations.js) and the CSV row codec / import loop
(csv.js and the /csv import routes).

Modelling conventions:
- Calendar dates are `SimpleDate` triples (year, month, day) with months
  1-based; JS `Date` objects built from components use 0-based months, and
  the translation is noted at each definition.  Date comparison in JS is by
  timestamp; for local-midnight dates this is lexicographic comparison of
  the triples, embedded as `dateLE`.  The legacy two-digit-year quirk of the
  JS `Date` constructor (years 0-99 shifted to 1900+) is not modelled: a
  year is taken literally, and theorems about calendar validity assume
  `1 ≤ year` (proleptic Gregorian years CE).
- JS numbers are embedded as `ℚ` (monetary values) and `Int` (counts).
  Nullable database fields and `parseFloat`/`parseInt` results that can be
  `NaN` are `Option`-valued; the JS idiom `x || d` (which replaces `NaN`,
  `null`, `0`, `''` by the default) is embedded by `jsOrQ` / `jsOrZ` /
  `jsOrStr`.
- Fiscal-year labels are genuine strings: the template-literal rendering of
  a year is embedded as decimal digit characters (`natToString`), and
  `parseInt(label.split('/')[0])` as taking the characters before the first
  `'/'` and folding their digit values (`parseLabelStartYear`).
-/

/-- A calendar date at day granularity; `month` is 1-based (1 = January). -/
structure SimpleDate where
  year : Nat
  month : Nat
  day : Nat
deriving DecidableEq, Repr

/-- Gregorian leap-year rule, as implemented by the JS `Date` normalisation
used in `new Date(year, month + 1, 0).getDate()`. -/
def isLeapYear (y : Nat) : Bool :=
  (y % 4 == 0 && y % 100 != 0) || y % 400 == 0

/-- Number of days of 1-based `month` in year `y`: the value of the JS
expression `new Date(year, month + 1, 0).getDate()` (with JS 0-based month
`month` = our `m - 1`). -/
def daysInMonth (y m : Nat) : Nat :=
  if m = 2 then (if isLeapYear y then 29 else 28)
  else if m = 4 ∨ m = 6 ∨ m = 9 ∨ m = 11 then 30
  else 31

/-- The date triples that denote an actual calendar day (every JS `Date`
normalises to such a triple); years are restricted to CE. -/
def ValidDate (d : SimpleDate) : Prop :=
  1 ≤ d.year ∧ 1 ≤ d.month ∧ d.month ≤ 12 ∧ 1 ≤ d.day ∧ d.day ≤ daysInMonth d.year d.month

instance (d : SimpleDate) : Decidable (ValidDate d) := by
  unfold ValidDate; exact inferInstance

/-- Day-granularity order on dates: the order of JS `Date` timestamps for
local-midnight dates, i.e. lexicographic on (year, month, day). -/
def dateLE (a b : SimpleDate) : Prop :=
  a.year < b.year ∨ (a.year = b.year ∧
    (a.month < b.month ∨ (a.month = b.month ∧ a.day ≤ b.day)))

instance (a b : SimpleDate) : Decidable (dateLE a b) := by
  unfold dateLE; exact inferInstance

/-- The day after `d` (for valid dates). -/
def nextDay (d : SimpleDate) : SimpleDate :=
  if d.day < daysInMonth d.year d.month then ⟨d.year, d.month, d.day + 1⟩
  else if d.month < 12 then ⟨d.year, d.month + 1, 1⟩
  else ⟨d.year + 1, 1, 1⟩

/-- The day before `d` (for valid dates). -/
def prevDay (d : SimpleDate) : SimpleDate :=
  if 1 < d.day then ⟨d.year, d.month, d.day - 1⟩
  else if 1 < d.month then ⟨d.year, d.month - 1, daysInMonth d.year (d.month - 1)⟩
  else ⟨d.year - 1, 12, 31⟩

/-- `n` days before `d`: the JS idiom `date.setDate(date.getDate() - n)`,
whose rollover normalisation moves the date back exactly `n` days. -/
def subDays (n : Nat) (d : SimpleDate) : SimpleDate :=
  Nat.iterate prevDay n d

/-- The decimal digit character for `d < 10`. -/
def digitChar (d : Nat) : Char :=
  Char.ofNat (48 + d)

/-- The decimal rendering of a natural number as JS `String(n)` produces it
(most significant digit first; `0` renders as `"0"`). -/
def natChars (n : Nat) : List Char :=
  if n = 0 then ['0'] else ((Nat.digits 10 n).map digitChar).reverse

/-- JS template-literal rendering of a natural number. -/
def natToString (n : Nat) : String :=
  String.mk (natChars n)

/-- Numeric value of a decimal digit character. -/
def charDigit (c : Char) : Nat :=
  c.toNat - 48

/-- Fold a most-significant-first digit-character list into a number: the
value `parseInt` gives an all-digit string. -/
def ofCharsBE (l : List Char) : Nat :=
  l.foldl (fun a c => a * 10 + charDigit c) 0

/-- JS `parseInt` on a string beginning with decimal digits: the value of
its leading digit run (`parseInt` ignores everything after it). -/
def jsParseIntNat (s : String) : Nat :=
  ofCharsBE (s.data.takeWhile (fun c => c.isDigit))

/-- The characters of `s` before its first `'/'`: JS `s.split('/')[0]`. -/
def splitSlashHead (s : String) : String :=
  String.mk (s.data.takeWhile (fun c => c ≠ '/'))

/-- JS `String(n).slice(-2)`: the last two characters (or all of a shorter
string). -/
def lastTwoChars (s : String) : String :=
  String.mk ((s.data.reverse.take 2).reverse)

section DecimalLemmas

theorem digitChar_toNat {d : Nat} (h : d < 10) : (digitChar d).toNat = 48 + d := by
  interval_cases d <;> decide

theorem charDigit_digitChar {d : Nat} (h : d < 10) : charDigit (digitChar d) = d := by
  interval_cases d <;> decide

theorem digitChar_isDigit {d : Nat} (h : d < 10) : (digitChar d).isDigit = true := by
  interval_cases d <;> decide

theorem digitChar_ne_slash {d : Nat} (h : d < 10) : (digitChar d) ≠ '/' := by
  interval_cases d <;> decide

theorem takeWhile_all {p : Char → Bool} {l : List Char} (h : ∀ c ∈ l, p c = true) :
    l.takeWhile p = l := by
  induction l with
  | nil => rfl
  | cons x xs ih =>
    simp only [List.takeWhile_cons, h x (by simp)]
    simp [ih fun c hc => h c (by simp [hc])]

theorem takeWhile_append_stop {p : Char → Bool} {l₁ l₂ : List Char} {x : Char}
    (h : ∀ c ∈ l₁, p c = true) (hx : p x = false) :
    (l₁ ++ x :: l₂).takeWhile p = l₁ := by
  induction l₁ with
  | nil => simp [List.takeWhile_cons, hx]
  | cons a as ih =>
    simp only [List.cons_append, List.takeWhile_cons, h a (by simp)]
    simp [ih fun c hc => h c (by simp [hc])]

theorem natChars_digits {n : Nat} {c : Char} (hc : c ∈ natChars n) : c.isDigit = true := by
  unfold natChars at hc
  by_cases h0 : n = 0
  · rw [if_pos h0] at hc
    simp only [List.mem_singleton] at hc
    subst hc; decide
  · rw [if_neg h0, List.mem_reverse, List.mem_map] at hc
    obtain ⟨d, hd, rfl⟩ := hc
    exact digitChar_isDigit (Nat.digits_lt_base (by norm_num) hd)

theorem natChars_ne_slash {n : Nat} {c : Char} (hc : c ∈ natChars n) : c ≠ '/' := by
  have hd := natChars_digits hc
  intro h
  subst h
  exact absurd hd (by decide)

theorem foldlBE_reverse (l : List Nat) :
    l.reverse.foldl (fun a d => a * 10 + d) 0 = Nat.ofDigits 10 l := by
  induction l with
  | nil => simp [Nat.ofDigits]
  | cons d ds ih =>
    simp only [List.reverse_cons, List.foldl_append, List.foldl_cons, List.foldl_nil,
      Nat.ofDigits_cons, ih]
    omega

theorem foldl_charDigit (l : List Nat) (h : ∀ d ∈ l, d < 10) (a : Nat) :
    (l.map digitChar).foldl (fun a c => a * 10 + charDigit c) a
      = l.foldl (fun a d => a * 10 + d) a := by
  induction l generalizing a with
  | nil => rfl
  | cons d ds ih =>
    simp only [List.map_cons, List.foldl_cons,
      charDigit_digitChar (h d (by simp))]
    exact ih (fun x hx => h x (by simp [hx])) _

theorem ofCharsBE_natChars (n : Nat) : ofCharsBE (natChars n) = n := by
  unfold ofCharsBE natChars
  by_cases h0 : n = 0
  · subst h0; decide
  · simp only [h0, if_false]
    rw [← List.map_reverse,
      foldl_charDigit _ (fun d hd =>
        Nat.digits_lt_base (by norm_num) (List.mem_reverse.mp hd)) 0,
      foldlBE_reverse, Nat.ofDigits_digits]

end DecimalLemmas

/-! ## Fiscal-calendar utilities (`fy.js`)

The financial year runs 1 July - 30 June; month names and the month-number
table are fixed constants of the module. -/

def MONTH_NAMES : List String :=
  ["Jul", "Aug", "Sep", "Oct", "Nov", "Dec", "Jan", "Feb", "Mar", "Apr", "May", "Jun"]

def MONTH_NUMBERS : List (String × Nat) :=
  [("Jul", 1), ("Aug", 2), ("Sep", 3), ("Oct", 4), ("Nov", 5), ("Dec", 6),
   ("Jan", 7), ("Feb", 8), ("Mar", 9), ("Apr", 10), ("May", 11), ("Jun", 12)]

/-- A financial year: label plus inclusive start/end dates (`end` is a Lean
keyword, so the field is `endD`). -/
structure FYInfo where
  label : String
  start : SimpleDate
  endD : SimpleDate
deriving DecidableEq, Repr

/-- An inclusive date range. -/
structure DateRange where
  start : SimpleDate
  endD : SimpleDate
deriving DecidableEq, Repr

/-- The label string `` `${fyStartYear}/${String(fyEndYear).slice(-2)}` ``. -/
def fyLabelStr (fyStartYear fyEndYear : Nat) : String :=
  natToString fyStartYear ++ "/" ++ lastTwoChars (natToString fyEndYear)

/-- `parseInt(fyLabel.split('/')[0])` for labels whose head is decimal. -/
def parseLabelStartYear (fyLabel : String) : Nat :=
  jsParseIntNat (splitSlashHead fyLabel)

/-- `getCurrentFY()`; the ambient clock `new Date()` is the explicit
argument `now`.  JS months `6`/`5` in the `Date` constructors are July/June
(0-based), i.e. months `7`/`6` here. -/
def getCurrentFY (now : SimpleDate) : FYInfo :=
  let currentYear := now.year
  let currentMonth := now.month
  let fyStartYear := if currentMonth ≥ 7 then currentYear else currentYear - 1
  let fyEndYear := if currentMonth ≥ 7 then currentYear + 1 else currentYear
  { label := fyLabelStr fyStartYear fyEndYear
    start := ⟨fyStartYear, 7, 1⟩
    endD := ⟨fyEndYear, 6, 30⟩ }

/-- `getFYForDate(date)`. -/
def getFYForDate (d : SimpleDate) : FYInfo :=
  let year := d.year
  let month := d.month
  let fyStartYear := if month ≥ 7 then year else year - 1
  let fyEndYear := if month ≥ 7 then year + 1 else year
  { label := fyLabelStr fyStartYear fyEndYear
    start := ⟨fyStartYear, 7, 1⟩
    endD := ⟨fyEndYear, 6, 30⟩ }

/-- `getFYMonth(date)`.  (The source also binds `fy`/`fyStartYear` from
`getFYForDate` but never uses them; those dead bindings are omitted.)
`MONTH_NAMES[index]` is embedded with `List.getD`; the indices used are
always in range for calendar months. -/
def getFYMonth (d : SimpleDate) : String :=
  let month := d.month
  if month ≥ 7 then MONTH_NAMES.getD (month - 7) ""
  else MONTH_NAMES.getD (month + 5) ""

/-- `getFYMonthNumber(monthName)`: table lookup with fallback 1. -/
def getFYMonthNumber (monthName : String) : Nat :=
  (MONTH_NUMBERS.lookup monthName).getD 1

/-- `getFYDateRange(fyLabel, monthName)`.  The source throws on an unknown
month name (`indexOf === -1`), embedded as `none`.  For `monthIndex < 6`
the JS 0-based month is `monthIndex + 6` (= 1-based `monthIndex + 7`) in
`startYear`; otherwise `monthIndex - 6` (= 1-based `monthIndex - 5`) in
`startYear + 1`; the range runs from day 1 to the true last day of that
calendar month. -/
def getFYDateRange (fyLabel monthName : String) : Option DateRange :=
  let startYear := parseLabelStartYear fyLabel
  match MONTH_NAMES.findIdx? (fun s => s == monthName) with
  | none => none
  | some monthIndex =>
    let year := if monthIndex < 6 then startYear else startYear + 1
    let month := if monthIndex < 6 then monthIndex + 7 else monthIndex - 5
    let lastDay := daysInMonth year month
    some { start := ⟨year, month, 1⟩, endD := ⟨year, month, lastDay⟩ }

/-- `getAllFYs(yearsBack)`: labels of `yearsBack + 1` consecutive financial
years ending at the current one, oldest first. -/
def getAllFYs (now : SimpleDate) (yearsBack : Nat) : List String :=
  let currentFY := getCurrentFY now
  let startYear := parseLabelStartYear currentFY.label
  (List.range (yearsBack + 1)).map (fun j =>
    let year := startYear - (yearsBack - j)
    fyLabelStr year (year + 1))

/-- `getAllFYMonths()`. -/
def getAllFYMonths : List String :=
  MONTH_NAMES

/-- `isDateInFYMonth(date, fyLabel, monthName)`; `false` when the range
resolution throws. -/
def isDateInFYMonth (d : SimpleDate) (fyLabel monthName : String) : Bool :=
  match getFYDateRange fyLabel monthName with
  | none => false
  | some range => decide (dateLE range.start d) && decide (dateLE d range.endD)

/-- Re-parsing a label built by the fiscal-calendar module recovers the
start year: the digits before the `'/'` are exactly the decimal rendering
of `fyStartYear`. -/
theorem parseLabel_fyLabel (a b : Nat) : parseLabelStartYear (fyLabelStr a b) = a := by
  unfold parseLabelStartYear fyLabelStr splitSlashHead jsParseIntNat natToString
  have hdata : (String.mk (natChars a) ++ "/" ++ lastTwoChars (String.mk (natChars b))).data
      = natChars a ++ '/' :: (lastTwoChars (String.mk (natChars b))).data := by
    rw [String.data_append, String.data_append]
    have hslash : "/".data = ['/'] := by decide
    rw [hslash, List.append_assoc]
    rfl
  rw [hdata]
  rw [takeWhile_append_stop (p := fun c => decide (c ≠ '/'))
    (fun c hc => by simpa using natChars_ne_slash hc) (by decide)]
  show ofCharsBE ((natChars a).takeWhile (fun c => c.isDigit)) = a
  rw [takeWhile_all (fun c hc => natChars_digits hc)]
  exact ofCharsBE_natChars a

/-! ## Per-order calculations (`calculations.js`) -/

/-- JS `parseFloat(x) || d` on a nullable numeric value: `null`/`NaN`
(embedded `none`) and `0` both fall back to the default. -/
def jsOrQ (v : Option ℚ) (d : ℚ) : ℚ :=
  match v with
  | none => d
  | some q => if q = 0 then d else q

/-- JS `parseInt(x) || d` on a nullable integer value. -/
def jsOrZ (v : Option Int) (d : Int) : Int :=
  match v with
  | none => d
  | some n => if n = 0 then d else n

/-- JS `s || d` on a nullable string: `null` and `''` fall back. -/
def jsOrStr (v : Option String) (d : String) : String :=
  match v with
  | none => d
  | some s => if s = "" then d else s

/-- An `orders` table row as the calculation/aggregation layer reads it.
Numeric fields are `Option`-valued so that `null` / unparsable inputs (for
which `parseFloat`/`parseInt` give `NaN`) are representable. -/
structure OrderRec where
  order_date : SimpleDate
  boxes_qty : Option Int
  box_rrp_total : Option ℚ
  box_net_total : Option ℚ
  box_build_cost_total : Option ℚ
  install_revenue : Option ℚ
  extras_revenue : Option ℚ
deriving DecidableEq, Repr

/-- The result record of `calculateOrderMetrics`. -/
structure OrderMetrics where
  expectedBaseline : ℚ
  actualBaseline : ℚ
  contributionPerBox : ℚ
  discountImpact : ℚ
  discountBoxesLost : ℚ
deriving DecidableEq, Repr

/-- `calculateOrderMetrics(order, baselineFloorPerBox)`. -/
def calculateOrderMetrics (order : OrderRec) (baselineFloorPerBox : ℚ) : OrderMetrics :=
  let boxRrpTotal := jsOrQ order.box_rrp_total 0
  let boxNetTotal := jsOrQ order.box_net_total 0
  let boxBuildCostTotal := jsOrQ order.box_build_cost_total 0
  let boxesQty := jsOrZ order.boxes_qty 1
  let expectedBaseline := boxRrpTotal - boxBuildCostTotal
  let actualBaseline := boxNetTotal - boxBuildCostTotal
  let contributionPerBox := if boxesQty > 0 then actualBaseline / (boxesQty : ℚ) else 0
  let discountImpact := expectedBaseline - actualBaseline
  let discountBoxesLost :=
    if baselineFloorPerBox > 0 then discountImpact / baselineFloorPerBox else 0
  { expectedBaseline := expectedBaseline
    actualBaseline := actualBaseline
    contributionPerBox := contributionPerBox
    discountImpact := discountImpact
    discountBoxesLost := discountBoxesLost }

/-! ## RAG threshold classifier (`rag.js`) -/

/-- The three-state status: green = on target, amber = watch, red = below
target. -/
inductive RAGStatus where
  | green
  | amber
  | red
deriving DecidableEq, Repr

/-- `getRAGStatus(value, target, amberFloorPct)` (default floor 0.90 is
supplied by callers; here the argument is explicit). -/
def getRAGStatus (value target amberFloorPct : ℚ) : RAGStatus :=
  if target = 0 then RAGStatus.green
  else
    let percentage := value / target
    if percentage ≥ 1 then RAGStatus.green
    else if percentage ≥ amberFloorPct then RAGStatus.amber
    else RAGStatus.red

/-- `getDiscountRAG(boxesLost)`. -/
def getDiscountRAG (boxesLost : ℚ) : RAGStatus :=
  if boxesLost ≤ 1 then RAGStatus.green
  else if boxesLost ≤ 3 then RAGStatus.amber
  else RAGStatus.red

/-- `getCostComplianceRAG(percentage)`. -/
def getCostComplianceRAG (percentage : ℚ) : RAGStatus :=
  if percentage ≥ 95 then RAGStatus.green
  else if percentage ≥ 90 then RAGStatus.amber
  else RAGStatus.red

/-- `getQualityRAG(percentage)`. -/
def getQualityRAG (percentage : ℚ) : RAGStatus :=
  if percentage ≤ 3 then RAGStatus.green
  else if percentage ≤ 5 then RAGStatus.amber
  else RAGStatus.red

/-- `formatStatusText(value, target, ragStatus)`: the `value`/`target`
arguments are unused by the source body. -/
def formatStatusText (_value _target : ℚ) (ragStatus : RAGStatus) : String :=
  match ragStatus with
  | RAGStatus.green => "On target"
  | RAGStatus.amber => "Watch"
  | RAGStatus.red => "Below target"

/-! ## Dashboard aggregations (`aggregations.js`) -/

/-- The single `settings` row as the aggregation layer reads it.  The
`monthly_box_targets_json` JSONB column is a finished month-name-to-target
map (the string/object duality of `JSON.parse` is collapsed: a stored
string parses to the same map). -/
structure Settings where
  baseline_floor_per_box : Option ℚ
  yearly_box_target : Option Int
  rag_amber_floor_pct : Option ℚ
  monthly_box_targets_json : Option (List (String × Int))
  install_capacity_high_season_per_week : Option Int
  fy_start_month : Option Int
deriving DecidableEq, Repr

/-- `getMonthlyBoxTarget(settings, fyMonth)`: 0 when the map is missing or
has no entry for the month (`parseInt(undefined) || 0`). -/
def getMonthlyBoxTarget (settings : Settings) (fyMonth : String) : Int :=
  match settings.monthly_box_targets_json with
  | none => 0
  | some targets => (targets.lookup fyMonth).getD 0

/-- A `production_boxes` table row as the aggregation layer reads it. -/
structure ReasonTag where
  reason : Option String
  boxes : Option Int
deriving DecidableEq, Repr

structure ProductionRec where
  production_date : SimpleDate
  boxes_built : Option Int
  boxes_over_cost : Option Int
  rework_boxes : Option Int
  over_cost_reasons_json : Option (List ReasonTag)
deriving DecidableEq, Repr

/-- Whether a date falls in an inclusive range (the `orderDate >= start &&
orderDate <= end` filter bodies). -/
def inRange (r : DateRange) (d : SimpleDate) : Bool :=
  decide (dateLE r.start d) && decide (dateLE d r.endD)

/-- `calculateRolling4WeekBoxes(orders, endDate)`: boxes over the 28 days
ending at `endDate`, across the entire order set. -/
def calculateRolling4WeekBoxes (orders : List OrderRec) (endDate : SimpleDate) : Int :=
  let startDate := subDays 28 endDate
  (orders.filter (fun o =>
      decide (dateLE startDate o.order_date) && decide (dateLE o.order_date endDate))).foldl
    (fun s o => s + jsOrZ o.boxes_qty 0) 0

/-- `calculateRolling4WeekProduction(productionData, endDate)`. -/
def calculateRolling4WeekProduction (productionData : List ProductionRec)
    (endDate : SimpleDate) : Int :=
  let startDate := subDays 28 endDate
  (productionData.filter (fun p =>
      decide (dateLE startDate p.production_date)
        && decide (dateLE p.production_date endDate))).foldl
    (fun s p => s + jsOrZ p.boxes_built 0) 0

/-- `calculateInstallsPerWeek(orders, dateRange)`. -/
def calculateInstallsPerWeek (orders : List OrderRec) (dateRange : DateRange) : ℚ :=
  let startDate := subDays 28 dateRange.endD
  let installOrders := orders.filter (fun o =>
    decide (dateLE startDate o.order_date) && decide (dateLE o.order_date dateRange.endD)
      && decide (jsOrQ o.install_revenue 0 > 0))
  let totalBoxes := installOrders.foldl (fun s o => s + jsOrZ o.boxes_qty 0) 0
  (totalBoxes : ℚ) / 4

/-- The nested `observedMix` record of the sales bundle. -/
structure ObservedMix where
  totalSalesValue : ℚ
  boxRevenue : ℚ
  installRevenue : ℚ
  extrasRevenue : ℚ
  boxMixPct : ℚ
  installMixPct : ℚ
  extrasMixPct : ℚ
deriving DecidableEq, Repr

/-- The nested `shapeMetrics` record of the sales bundle. -/
structure ShapeMetrics where
  ordersCount : Nat
  avgBoxesPerOrder : ℚ
  avgBaselinePerBox : ℚ
  rolling4WeekBoxesPerWeek : ℚ
deriving DecidableEq, Repr

/-- The bundle returned by `aggregateSalesMetrics`. -/
structure SalesMetrics where
  boxesSold : Int
  baselineActual : ℚ
  baselineTarget : ℚ
  averageDiscountPct : ℚ
  discountImpactTotal : ℚ
  discountBoxesLostTotal : ℚ
  observedMix : ObservedMix
  shapeMetrics : ShapeMetrics
deriving DecidableEq, Repr

/-- `aggregateSalesMetrics(orders, settings, fyLabel, fyMonth)`; `none`
when `getFYDateRange` throws on its arguments. -/
def aggregateSalesMetrics (orders : List OrderRec) (settings : Settings)
    (fyLabel fyMonth : String) : Option SalesMetrics :=
  let baselineFloorPerBox := jsOrQ settings.baseline_floor_per_box 700
  let monthlyBoxTarget := getMonthlyBoxTarget settings fyMonth
  let baselineTarget := (monthlyBoxTarget : ℚ) * baselineFloorPerBox
  match getFYDateRange fyLabel fyMonth with
  | none => none
  | some dateRange =>
    let monthOrders := orders.filter (fun o => inRange dateRange o.order_date)
    let orderMetrics := monthOrders.map (fun o => calculateOrderMetrics o baselineFloorPerBox)
    let boxesSold := monthOrders.foldl (fun s o => s + jsOrZ o.boxes_qty 0) 0
    let baselineActual := orderMetrics.foldl (fun s m => s + m.actualBaseline) 0
    let discountImpactTotal := orderMetrics.foldl (fun s m => s + m.discountImpact) 0
    let discountBoxesLostTotal :=
      if baselineFloorPerBox > 0 then discountImpactTotal / baselineFloorPerBox else 0
    let totalRrp := monthOrders.foldl (fun s o => s + jsOrQ o.box_rrp_total 0) 0
    let averageDiscountPct :=
      if totalRrp > 0 then (discountImpactTotal / totalRrp) * 100 else 0
    let totalSalesValue := monthOrders.foldl (fun s o =>
      s + jsOrQ o.box_net_total 0 + jsOrQ o.install_revenue 0 + jsOrQ o.extras_revenue 0) 0
    let boxRevenue := monthOrders.foldl (fun s o => s + jsOrQ o.box_net_total 0) 0
    let installRevenue := monthOrders.foldl (fun s o => s + jsOrQ o.install_revenue 0) 0
    let extrasRevenue := monthOrders.foldl (fun s o => s + jsOrQ o.extras_revenue 0) 0
    let boxMixPct := if totalSalesValue > 0 then (boxRevenue / totalSalesValue) * 100 else 0
    let installMixPct :=
      if totalSalesValue > 0 then (installRevenue / totalSalesValue) * 100 else 0
    let extrasMixPct :=
      if totalSalesValue > 0 then (extrasRevenue / totalSalesValue) * 100 else 0
    let ordersCount := monthOrders.length
    let avgBoxesPerOrder :=
      if ordersCount > 0 then (boxesSold : ℚ) / (ordersCount : ℚ) else 0
    let avgBaselinePerBox :=
      if boxesSold > 0 then baselineActual / (boxesSold : ℚ) else 0
    let rolling4WeekBoxes := calculateRolling4WeekBoxes orders dateRange.endD
    let rolling4WeekBoxesPerWeek := (rolling4WeekBoxes : ℚ) / 4
    some
      { boxesSold := boxesSold
        baselineActual := baselineActual
        baselineTarget := baselineTarget
        averageDiscountPct := averageDiscountPct
        discountImpactTotal := discountImpactTotal
        discountBoxesLostTotal := discountBoxesLostTotal
        observedMix :=
          { totalSalesValue := totalSalesValue
            boxRevenue := boxRevenue
            installRevenue := installRevenue
            extrasRevenue := extrasRevenue
            boxMixPct := boxMixPct
            installMixPct := installMixPct
            extrasMixPct := extrasMixPct }
        shapeMetrics :=
          { ordersCount := ordersCount
            avgBoxesPerOrder := avgBoxesPerOrder
            avgBaselinePerBox := avgBaselinePerBox
            rolling4WeekBoxesPerWeek := rolling4WeekBoxesPerWeek } }

/-- One entry of the aggregated cost-leakage reason table. -/
structure ReasonAgg where
  reason : String
  count : Nat
  boxes : Int
deriving DecidableEq, Repr

/-- Record one reason tag into the accumulating reason map (a JS object in
insertion order; an existing key is updated in place, a new key appended). -/
def insertReasonTag (reason : String) (boxes : Int) : List ReasonAgg → List ReasonAgg
  | [] => [{ reason := reason, count := 1, boxes := boxes }]
  | e :: es =>
    if e.reason = reason then
      { e with count := e.count + 1, boxes := e.boxes + boxes } :: es
    else e :: insertReasonTag reason boxes es

def updateReasonMap (m : List ReasonAgg) (r : ReasonTag) : List ReasonAgg :=
  insertReasonTag (jsOrStr r.reason "unknown") (jsOrZ r.boxes 0) m

/-- `aggregateCostLeakageReasons(productionData)`: flatten reason tags,
group by reason, sort descending by boxes (JS stable sort) and keep the top
five.  A missing or non-array JSONB value contributes nothing. -/
def aggregateCostLeakageReasons (productionData : List ProductionRec) : List ReasonAgg :=
  let reasonMap := productionData.foldl (fun m prod =>
    match prod.over_cost_reasons_json with
    | none => m
    | some reasons => reasons.foldl updateReasonMap m) []
  ((reasonMap.mergeSort (fun a b => b.boxes ≤ a.boxes)).take 5)

/-- Nested `installLoad` record of the production bundle. -/
structure InstallLoad where
  installedBoxes : Int
  installsPerWeek : ℚ
  capacity : Int
deriving DecidableEq, Repr

/-- Nested `flowMetrics` record of the production bundle. -/
structure FlowMetrics where
  boxesBuilt : Int
  rolling4WeekAvg : ℚ
  installLoad : InstallLoad
  backlog : Int
deriving DecidableEq, Repr

/-- Nested `qualityMetrics` record of the production bundle. -/
structure QualityMetrics where
  reworkBoxes : Int
  reworkRate : ℚ
deriving DecidableEq, Repr

/-- Nested `costLeakage` record of the production bundle. -/
structure CostLeakage where
  boxesOverCost : Int
  reasons : List ReasonAgg
deriving DecidableEq, Repr

/-- Nested `installShape` record of the production bundle. -/
structure InstallShape where
  installedBoxes : Int
  collectedBoxes : Int
  installShapePct : ℚ
deriving DecidableEq, Repr

/-- The bundle returned by `aggregateProductionMetrics`. -/
structure ProductionMetrics where
  boxesBuilt : Int
  costCompliancePct : ℚ
  costLeakage : CostLeakage
  flowMetrics : FlowMetrics
  qualityMetrics : QualityMetrics
  installShape : InstallShape
deriving DecidableEq, Repr

/-- `aggregateProductionMetrics(productionData, orders, settings, fyLabel,
fyMonth)`; `none` when `getFYDateRange` throws.  (The source computes
`monthlyBoxTarget` at the top but never uses it.) -/
def aggregateProductionMetrics (productionData : List ProductionRec)
    (orders : List OrderRec) (settings : Settings)
    (fyLabel fyMonth : String) : Option ProductionMetrics :=
  let _monthlyBoxTarget := getMonthlyBoxTarget settings fyMonth
  match getFYDateRange fyLabel fyMonth with
  | none => none
  | some dateRange =>
    let monthProduction :=
      productionData.filter (fun prod => inRange dateRange prod.production_date)
    let boxesBuilt := monthProduction.foldl (fun s prod => s + jsOrZ prod.boxes_built 0) 0
    let boxesOverCost :=
      monthProduction.foldl (fun s prod => s + jsOrZ prod.boxes_over_cost 0) 0
    let reworkBoxes := monthProduction.foldl (fun s prod => s + jsOrZ prod.rework_boxes 0) 0
    let costCompliancePct :=
      if boxesBuilt > 0 then (((boxesBuilt - boxesOverCost : Int) : ℚ) / (boxesBuilt : ℚ)) * 100
      else 100
    let costLeakageReasons := aggregateCostLeakageReasons monthProduction
    let rolling4WeekBoxes := calculateRolling4WeekProduction productionData dateRange.endD
    let rolling4WeekAvg := (rolling4WeekBoxes : ℚ) / 4
    let boxesSold := (orders.filter (fun o => decide (dateLE o.order_date dateRange.endD))).foldl
      (fun s o => s + jsOrZ o.boxes_qty 0) 0
    let backlog := boxesSold - boxesBuilt
    let reworkRate :=
      if boxesBuilt > 0 then ((reworkBoxes : ℚ) / (boxesBuilt : ℚ)) * 100 else 0
    let installedBoxes :=
      ((orders.filter (fun o => inRange dateRange o.order_date)).filter
        (fun o => decide (jsOrQ o.install_revenue 0 > 0))).foldl
        (fun s o => s + jsOrZ o.boxes_qty 0) 0
    let installsPerWeek := calculateInstallsPerWeek orders dateRange
    let installCapacity := jsOrZ settings.install_capacity_high_season_per_week 15
    let collectedBoxes := boxesBuilt
    let installShapePct :=
      if collectedBoxes > 0 then ((installedBoxes : ℚ) / (collectedBoxes : ℚ)) * 100 else 0
    some
      { boxesBuilt := boxesBuilt
        costCompliancePct := costCompliancePct
        costLeakage := { boxesOverCost := boxesOverCost, reasons := costLeakageReasons }
        flowMetrics :=
          { boxesBuilt := boxesBuilt
            rolling4WeekAvg := rolling4WeekAvg
            installLoad :=
              { installedBoxes := installedBoxes
                installsPerWeek := installsPerWeek
                capacity := installCapacity }
            backlog := backlog }
        qualityMetrics := { reworkBoxes := reworkBoxes, reworkRate := reworkRate }
        installShape :=
          { installedBoxes := installedBoxes
            collectedBoxes := collectedBoxes
            installShapePct := installShapePct } }

/-! ## CSV row codec and import loop (`csv.js`, `routes/csv.js`)

A CSV cell is a string; after `csv-parser` every row field is a string.
Cells are embedded at the value level: `none` is the empty cell (falsy in
the `!row.field` required-checks), `some v` is a non-empty cell whose
`parseInt`/`parseFloat`/`new Date` coercion yields `v`.  Non-empty cells
that fail to parse are outside the model (no claim depends on them); note
that a cell holding `"0"` is truthy in JS, which the embedding preserves
by distinguishing `some 0` from `none`. -/

/-- The JS `\s` character class (ASCII part). -/
def isWsChar (c : Char) : Bool :=
  c = ' ' || c = '\t' || c = '\n' || c = '\r' || c = '\x0b' || c = '\x0c'

/-- The order-import email check `/^[^\s@]+@[^\s@]+\.[^\s@]+$/`: no
whitespace, exactly one `'@'` with a non-empty local part, and a dot in the
interior of the non-empty domain part. -/
def emailRegexTest (s : String) : Bool :=
  let cs := s.data
  if cs.any isWsChar then false
  else
    match cs.findIdx? (fun c => c == '@') with
    | none => false
    | some idx =>
      let domain := cs.drop (idx + 1)
      decide (1 ≤ idx) && !(domain.contains '@')
        && decide ('.' ∈ (domain.drop 1).dropLast)

/-- The `over_cost_reasons_json` cell of a production CSV row, keeping the
distinctions the validator branches on. -/
inductive ReasonsCell where
  | empty
  | badJson
  | jsonNonArray
  | jsonArray (tags : List ReasonTag)
deriving DecidableEq, Repr

/-- An order CSV row as seen after `csv-parser` (extra columns such as the
exported `id`/`sales_rep_name` are never read by the import path). -/
structure OrderCsvRow where
  order_date : Option SimpleDate
  order_ref : Option String
  sales_rep_email : Option String
  boxes_qty : Option Int
  box_rrp_total : Option ℚ
  box_net_total : Option ℚ
  box_build_cost_total : Option ℚ
  install_revenue : Option ℚ
  extras_revenue : Option ℚ
  notes : Option String
deriving DecidableEq, Repr

/-- A production CSV row. -/
structure ProductionCsvRow where
  production_date : Option SimpleDate
  boxes_built : Option Int
  boxes_over_cost : Option Int
  rework_boxes : Option Int
  over_cost_reasons_json : ReasonsCell
  notes : Option String
deriving DecidableEq, Repr

/-- Result of a row validator: the error messages already carry the row
number prefix. -/
structure ValidationResult where
  valid : Bool
  errors : List String
deriving DecidableEq, Repr

/-- `validateOrderRow(row, rowNumber)`.  Error messages are produced in
source order: the five required-field checks, the type checks, the date
check, then the email check.  In-model cells always parse, so the number
checks fail exactly on empty cells (`parseInt('') = NaN`) and the date
check never fires on a present cell. -/
def validateOrderRow (row : OrderCsvRow) (rowNumber : Nat) : ValidationResult :=
  let required :=
    (if row.order_date.isNone then ["order_date is required"] else [])
      ++ (if row.boxes_qty.isNone then ["boxes_qty is required"] else [])
      ++ (if row.box_rrp_total.isNone then ["box_rrp_total is required"] else [])
      ++ (if row.box_net_total.isNone then ["box_net_total is required"] else [])
      ++ (if row.box_build_cost_total.isNone then ["box_build_cost_total is required"] else [])
  let boxesQtyErr :=
    match row.boxes_qty with
    | none => ["boxes_qty must be a positive integer"]
    | some n => if n < 1 then ["boxes_qty must be a positive integer"] else []
  let rrpErr := if row.box_rrp_total.isNone then ["box_rrp_total must be a number"] else []
  let netErr := if row.box_net_total.isNone then ["box_net_total must be a number"] else []
  let buildErr :=
    if row.box_build_cost_total.isNone then ["box_build_cost_total must be a number"] else []
  let emailErr :=
    match row.sales_rep_email with
    | none => []
    | some e =>
      if emailRegexTest e then [] else ["sales_rep_email must be a valid email address"]
  let errors := required ++ boxesQtyErr ++ rrpErr ++ netErr ++ buildErr ++ emailErr
  { valid := errors.isEmpty
    errors := errors.map (fun err => "Row " ++ natToString rowNumber ++ ": " ++ err) }

/-- `validateProductionRow(row, rowNumber)`. -/
def validateProductionRow (row : ProductionCsvRow) (rowNumber : Nat) : ValidationResult :=
  let required :=
    (if row.production_date.isNone then ["production_date is required"] else [])
      ++ (if row.boxes_built.isNone then ["boxes_built is required"] else [])
  let builtErr :=
    match row.boxes_built with
    | none => ["boxes_built must be a non-negative integer"]
    | some n => if n < 0 then ["boxes_built must be a non-negative integer"] else []
  let overErr :=
    match row.boxes_over_cost with
    | none => []
    | some n => if n < 0 then ["boxes_over_cost must be a non-negative integer"] else []
  let reworkErr :=
    match row.rework_boxes with
    | none => []
    | some n => if n < 0 then ["rework_boxes must be a non-negative integer"] else []
  let reasonsErr :=
    match row.over_cost_reasons_json with
    | ReasonsCell.empty => []
    | ReasonsCell.badJson => ["over_cost_reasons_json must be valid JSON"]
    | ReasonsCell.jsonNonArray => ["over_cost_reasons_json must be a valid JSON array"]
    | ReasonsCell.jsonArray _ => []
  let errors := required ++ builtErr ++ overErr ++ reworkErr ++ reasonsErr
  { valid := errors.isEmpty
    errors := errors.map (fun err => "Row " ++ natToString rowNumber ++ ": " ++ err) }

/-- An `orders` row joined with the owner's email/name, as the export query
returns it. -/
structure OrderDbRow where
  id : Int
  order_date : Option SimpleDate
  order_ref : Option String
  sales_rep_email : Option String
  sales_rep_name : Option String
  boxes_qty : Int
  box_rrp_total : ℚ
  box_net_total : ℚ
  box_build_cost_total : ℚ
  install_revenue : Option ℚ
  extras_revenue : Option ℚ
  notes : Option String
deriving DecidableEq, Repr

/-- One formatted export row (`formatOrdersForExport` body, per order).
`toISOString().split('T')[0]` renders the same calendar day (the model
assumes a UTC server clock); numeric fields pass through; nullable strings
become `''` (the empty cell). -/
structure OrderExportRow where
  id : Int
  order_date : Option SimpleDate
  order_ref : Option String
  sales_rep_email : Option String
  sales_rep_name : Option String
  boxes_qty : Int
  box_rrp_total : ℚ
  box_net_total : ℚ
  box_build_cost_total : ℚ
  install_revenue : ℚ
  extras_revenue : ℚ
  notes : Option String
deriving DecidableEq, Repr

/-- Empty-cell normalisation for an optional string: `x || ''` exports the
empty cell for both `null` and `''`. -/
def strCell (v : Option String) : Option String :=
  match v with
  | none => none
  | some s => if s = "" then none else some s

/-- `formatOrdersForExport` on a single order row. -/
def formatOrderForExport (order : OrderDbRow) : OrderExportRow :=
  { id := order.id
    order_date := order.order_date
    order_ref := strCell order.order_ref
    sales_rep_email := strCell order.sales_rep_email
    sales_rep_name := strCell order.sales_rep_name
    boxes_qty := order.boxes_qty
    box_rrp_total := order.box_rrp_total
    box_net_total := order.box_net_total
    box_build_cost_total := order.box_build_cost_total
    install_revenue := jsOrQ order.install_revenue 0
    extras_revenue := jsOrQ order.extras_revenue 0
    notes := strCell order.notes }

/-- `formatOrdersForExport(orders)`. -/
def formatOrdersForExport (orders : List OrderDbRow) : List OrderExportRow :=
  orders.map formatOrderForExport

/-- Reading an exported row back through `csv-parser`: the import reads
only its known columns (`id` and `sales_rep_name` are ignored), and every
number was stringified by `csv-stringify` and re-parsed losslessly (JS
number-to-string rendering round-trips through `parseFloat`/`parseInt`;
`0` renders as the truthy cell `"0"`). -/
def csvRowOfExport (row : OrderExportRow) : OrderCsvRow :=
  { order_date := row.order_date
    order_ref := row.order_ref
    sales_rep_email := row.sales_rep_email
    boxes_qty := some row.boxes_qty
    box_rrp_total := some row.box_rrp_total
    box_net_total := some row.box_net_total
    box_build_cost_total := some row.box_build_cost_total
    install_revenue := some row.install_revenue
    extras_revenue := some row.extras_revenue
    notes := row.notes }

/-- The record the order-import inserts (`INSERT INTO orders ...` values
in the loop body).  `boxes_qty` and the three monetary fields keep the
`Option` of their `parseInt`/`parseFloat` results (always `some` once
validation has passed). -/
structure InsertedOrder where
  order_date : Option SimpleDate
  order_ref : Option String
  sales_rep_id : Option Int
  boxes_qty : Option Int
  box_rrp_total : Option ℚ
  box_net_total : Option ℚ
  box_build_cost_total : Option ℚ
  install_revenue : ℚ
  extras_revenue : ℚ
  notes : Option String
deriving DecidableEq, Repr

/-- The record the production-import inserts. -/
structure InsertedProduction where
  production_date : Option SimpleDate
  boxes_built : Option Int
  boxes_over_cost : Int
  over_cost_reasons_json : Option (List ReasonTag)
  rework_boxes : Int
  notes : Option String
deriving DecidableEq, Repr

/-- The running `importResult` of an import route, together with the rows
inserted so far (the database insert itself is modelled as always
succeeding, so the `dbError` catch branch never fires). -/
structure OrderImportResult where
  total : Nat
  success : Nat
  failed : Nat
  errors : List String
  inserted : List InsertedOrder
deriving DecidableEq, Repr

structure ProductionImportResult where
  total : Nat
  success : Nat
  failed : Nat
  errors : List String
  inserted : List InsertedProduction
deriving DecidableEq, Repr

/-- One iteration of the `POST /csv/import/orders` loop at 0-based row
index `i` (`rowNumber = i + 2`: the CSV header is row 1).  `users` is the
`users` table as an email-to-id map for the sales-rep lookup. -/
def processOrderRow (users : List (String × Int)) (acc : OrderImportResult)
    (i : Nat) (row : OrderCsvRow) : OrderImportResult :=
  let rowNumber := i + 2
  let validation := validateOrderRow row rowNumber
  if !validation.valid then
    { acc with failed := acc.failed + 1, errors := acc.errors ++ validation.errors }
  else
    match row.sales_rep_email with
    | some e =>
      match users.lookup e with
      | some uid =>
        { acc with
          success := acc.success + 1
          inserted := acc.inserted ++
            [{ order_date := row.order_date
               order_ref := row.order_ref
               sales_rep_id := some uid
               boxes_qty := row.boxes_qty
               box_rrp_total := row.box_rrp_total
               box_net_total := row.box_net_total
               box_build_cost_total := row.box_build_cost_total
               install_revenue := row.install_revenue.getD 0
               extras_revenue := row.extras_revenue.getD 0
               notes := row.notes }] }
      | none =>
        { acc with
          failed := acc.failed + 1
          errors := acc.errors ++
            ["Row " ++ natToString rowNumber ++ ": Sales rep email not found: " ++ e] }
    | none =>
      { acc with
        success := acc.success + 1
        inserted := acc.inserted ++
          [{ order_date := row.order_date
             order_ref := row.order_ref
             sales_rep_id := none
             boxes_qty := row.boxes_qty
             box_rrp_total := row.box_rrp_total
             box_net_total := row.box_net_total
             box_build_cost_total := row.box_build_cost_total
             install_revenue := row.install_revenue.getD 0
             extras_revenue := row.extras_revenue.getD 0
             notes := row.notes }] }

/-- The whole `POST /csv/import/orders` row loop over the parsed rows. -/
def processOrdersImport (users : List (String × Int))
    (rows : List OrderCsvRow) : OrderImportResult :=
  rows.enum.foldl (fun acc p => processOrderRow users acc p.1 p.2)
    { total := rows.length, success := 0, failed := 0, errors := [], inserted := [] }

/-- One iteration of the `POST /csv/import/production` loop (same
`rowNumber = i + 2` convention).  The in-loop re-parse of
`over_cost_reasons_json` cannot fail after validation (validation already
required a JSON array), so the `Invalid JSON` branch is unreachable for
valid rows; for faithfulness it is still present for `badJson` cells. -/
def processProductionRow (acc : ProductionImportResult)
    (i : Nat) (row : ProductionCsvRow) : ProductionImportResult :=
  let rowNumber := i + 2
  let validation := validateProductionRow row rowNumber
  if !validation.valid then
    { acc with failed := acc.failed + 1, errors := acc.errors ++ validation.errors }
  else
    match row.over_cost_reasons_json with
    | ReasonsCell.badJson =>
      { acc with
        failed := acc.failed + 1
        errors := acc.errors ++
          ["Row " ++ natToString rowNumber ++ ": Invalid JSON in over_cost_reasons_json"] }
    | cell =>
      { acc with
        success := acc.success + 1
        inserted := acc.inserted ++
          [{ production_date := row.production_date
             boxes_built := row.boxes_built
             boxes_over_cost := (row.boxes_over_cost.getD 0)
             over_cost_reasons_json :=
               match cell with
               | ReasonsCell.jsonArray tags => some tags
               | _ => none
             rework_boxes := (row.rework_boxes.getD 0)
             notes := row.notes }] }

/-- The whole `POST /csv/import/production` row loop. -/
def processProductionImport (rows : List ProductionCsvRow) : ProductionImportResult :=
  rows.enum.foldl (fun acc p => processProductionRow acc p.1 p.2)
    { total := rows.length, success := 0, failed := 0, errors := [], inserted := [] }

/-! ## Helper lemmas about the fiscal calendar -/

/-- `getFYDateRange` on a well-formed label and the `k`-th fiscal month
name: the range is the first-to-last day of the resolved calendar month. -/
theorem getFYDateRange_month (y k : Nat) (hk : k < 12) :
    getFYDateRange (fyLabelStr y (y + 1)) (MONTH_NAMES.getD k "")
      = some
        { start := ⟨(if k < 6 then y else y + 1), (if k < 6 then k + 7 else k - 5), 1⟩
          endD := ⟨(if k < 6 then y else y + 1), (if k < 6 then k + 7 else k - 5),
            daysInMonth (if k < 6 then y else y + 1) (if k < 6 then k + 7 else k - 5)⟩ } := by
  interval_cases k <;>
    · simp only [getFYDateRange, parseLabel_fyLabel]
      rfl

/-- A date inside a single-calendar-month range has that year and month. -/
theorem mem_month_range {Y M L : Nat} {d : SimpleDate}
    (h1 : dateLE ⟨Y, M, 1⟩ d) (h2 : dateLE d ⟨Y, M, L⟩) :
    d.year = Y ∧ d.month = M ∧ 1 ≤ d.day ∧ d.day ≤ L := by
  simp [dateLE] at h1 h2
  omega

/-! ## Claim theorems -/

/-- The fiscal-calendar API as invoked with ambient settings `s`: no
component function consults the settings (none of them takes a settings
argument in the source, and none reads `fy_start_month`). -/
def fiscalCalendarUnderSettings (_settings : Settings) (now d : SimpleDate)
    (fyLabel monthName : String) (yearsBack : Nat) :
    FYInfo × String × FYInfo × Option DateRange × List String × List String :=
  (getCurrentFY now, getFYMonth d, getFYForDate d, getFYDateRange fyLabel monthName,
    getAllFYs now yearsBack, getAllFYMonths)

/-- C10: every Fiscal Calendar operation computes with the start month
fixed to July: the whole API is invariant under the configured
`fy_start_month` (and all other settings), the month-name order is the
fixed Jul..Jun list, and every fiscal year produced starts 1 July and ends
30 June. -/
theorem c10_calendar_ignores_settings :
    (∀ (s₁ s₂ : Settings) (now d : SimpleDate) (fyLabel monthName : String) (yearsBack : Nat),
        fiscalCalendarUnderSettings s₁ now d fyLabel monthName yearsBack
          = fiscalCalendarUnderSettings s₂ now d fyLabel monthName yearsBack)
  ∧ MONTH_NAMES
      = ["Jul", "Aug", "Sep", "Oct", "Nov", "Dec", "Jan", "Feb", "Mar", "Apr", "May", "Jun"]
  ∧ getAllFYMonths = MONTH_NAMES
  ∧ (∀ d : SimpleDate,
      (getFYForDate d).start.month = 7 ∧ (getFYForDate d).start.day = 1
        ∧ (getFYForDate d).endD.month = 6 ∧ (getFYForDate d).endD.day = 30)
  ∧ (∀ now : SimpleDate,
      (getCurrentFY now).start.month = 7 ∧ (getCurrentFY now).start.day = 1
        ∧ (getCurrentFY now).endD.month = 6 ∧ (getCurrentFY now).endD.day = 30) :=
  ⟨fun _ _ _ _ _ _ _ => rfl, rfl, rfl,
    fun _ => ⟨rfl, rfl, rfl, rfl⟩, fun _ => ⟨rfl, rfl, rfl, rfl⟩⟩

/-- C5: `getRAGStatus` returns green whenever the target is 0; for a
non-zero target and an amber floor fraction `f < 1` it classifies by the
ratio `value / target` (green at ≥ 1, amber on [f, 1), red below f), and
the three spec scenarios hold at floor 0.90. -/
theorem c5_getRAGStatus_classification (v t f : ℚ) :
    getRAGStatus v 0 f = RAGStatus.green
  ∧ (t ≠ 0 → f < 1 →
      ((1 ≤ v / t → getRAGStatus v t f = RAGStatus.green)
        ∧ (f ≤ v / t → v / t < 1 → getRAGStatus v t f = RAGStatus.amber)
        ∧ (v / t < f → getRAGStatus v t f = RAGStatus.red)))
  ∧ getRAGStatus 650 700 (9 / 10) = RAGStatus.amber
  ∧ getRAGStatus 560 700 (9 / 10) = RAGStatus.red
  ∧ getRAGStatus 700 700 (9 / 10) = RAGStatus.green := by
  refine ⟨by simp [getRAGStatus], fun ht hf => ⟨?_, ?_, ?_⟩, ?_, ?_, ?_⟩
  · intro h
    simp [getRAGStatus, ht, h]
  · intro h1 h2
    simp only [getRAGStatus, if_neg ht]
    rw [if_neg (by exact not_le.mpr h2), if_pos (by exact h1)]
  · intro h
    simp only [getRAGStatus, if_neg ht]
    rw [if_neg (by exact not_le.mpr (lt_trans h hf)), if_neg (by exact not_le.mpr h)]
  · norm_num [getRAGStatus]
  · norm_num [getRAGStatus]
  · norm_num [getRAGStatus]

/-- C5 witness: the watch scenario through the general classification. -/
theorem c5_witness :
    getRAGStatus 650 700 (9 / 10) = RAGStatus.amber :=
  ((c5_getRAGStatus_classification 650 700 (9 / 10)).2.1 (by norm_num) (by norm_num)).2.1
    (by norm_num) (by norm_num)

/-- The §8 scenario order: boxesQty 2, RRP 2800, net 2600, build cost
1400. -/
def scenarioOrder : OrderRec :=
  { order_date := ⟨2025, 7, 10⟩
    boxes_qty := some 2
    box_rrp_total := some 2800
    box_net_total := some 2600
    box_build_cost_total := some 1400
    install_revenue := some 500
    extras_revenue := some 200 }

/-- C3 counterexample: at a negative baseline floor the code returns
`discountBoxesLost = 0`, whereas the claimed formula
`discountImpact / floor` gives −2/7 on the scenario order. -/
theorem c3_counterexample :
    (calculateOrderMetrics scenarioOrder (-700)).discountBoxesLost = 0
      ∧ (calculateOrderMetrics scenarioOrder (-700)).discountImpact / (-700) ≠ 0 := by
  constructor
  · norm_num [calculateOrderMetrics, scenarioOrder, jsOrQ, jsOrZ]
  · norm_num [calculateOrderMetrics, scenarioOrder, jsOrQ, jsOrZ]

/-- C3 (amended): `calculateOrderMetrics` returns
`expectedBaseline = rrpTotal − buildCostTotal`,
`actualBaseline = netTotal − buildCostTotal`,
`discountImpact = expectedBaseline − actualBaseline = rrpTotal − netTotal`,
and `discountBoxesLost = discountImpact / floor` when the floor is
positive and `0` when the floor is zero *or negative*; the §8 scenario
values hold (contributionPerBox 600, discountBoxesLost 2/7). -/
theorem c3_order_metrics_formulas (o : OrderRec) (floor : ℚ) :
    (calculateOrderMetrics o floor).expectedBaseline
        = jsOrQ o.box_rrp_total 0 - jsOrQ o.box_build_cost_total 0
  ∧ (calculateOrderMetrics o floor).actualBaseline
        = jsOrQ o.box_net_total 0 - jsOrQ o.box_build_cost_total 0
  ∧ (calculateOrderMetrics o floor).discountImpact
        = (calculateOrderMetrics o floor).expectedBaseline
            - (calculateOrderMetrics o floor).actualBaseline
  ∧ (calculateOrderMetrics o floor).discountImpact
        = jsOrQ o.box_rrp_total 0 - jsOrQ o.box_net_total 0
  ∧ (0 < floor →
      (calculateOrderMetrics o floor).discountBoxesLost
        = (calculateOrderMetrics o floor).discountImpact / floor)
  ∧ (floor ≤ 0 → (calculateOrderMetrics o floor).discountBoxesLost = 0)
  ∧ calculateOrderMetrics scenarioOrder 700
      = { expectedBaseline := 1400, actualBaseline := 1200, contributionPerBox := 600,
          discountImpact := 200, discountBoxesLost := 2 / 7 } := by
  refine ⟨rfl, rfl, ?_, ?_, ?_, ?_, ?_⟩
  · simp [calculateOrderMetrics]
  · simp [calculateOrderMetrics]
  · intro h
    simp [calculateOrderMetrics, h]
  · intro h
    simp [calculateOrderMetrics, not_lt.mpr h]
  · norm_num [calculateOrderMetrics, scenarioOrder, jsOrQ, jsOrZ]

/-- C3 witness: the positive-floor branch at the scenario input. -/
theorem c3_witness :
    (calculateOrderMetrics scenarioOrder 700).discountBoxesLost
      = (calculateOrderMetrics scenarioOrder 700).discountImpact / 700 :=
  (c3_order_metrics_formulas scenarioOrder 700).2.2.2.2.1 (by norm_num)

/-- The scenario order with a negative stored quantity. -/
def negQtyOrder : OrderRec :=
  { scenarioOrder with boxes_qty := some (-2) }

/-- C7 counterexample: for a *negative* stored `boxes_qty` the code keeps
the negative quantity (only `NaN` and `0` fall to the `|| 1` default), the
`boxesQty > 0` guard then fails, and `contributionPerBox` is `0`, not
`actualBaseline / 1 = 1200`. -/
theorem c7_counterexample :
    (calculateOrderMetrics negQtyOrder 700).contributionPerBox = 0
  ∧ (calculateOrderMetrics negQtyOrder 700).actualBaseline = 1200
  ∧ (calculateOrderMetrics negQtyOrder 700).contributionPerBox
      ≠ (calculateOrderMetrics negQtyOrder 700).actualBaseline := by
  refine ⟨?_, ?_, ?_⟩ <;>
    norm_num [calculateOrderMetrics, negQtyOrder, scenarioOrder, jsOrQ, jsOrZ]

/-- C7 (amended): a missing or zero stored `boxes_qty` is treated as 1, so
`contributionPerBox = actualBaseline`; a *negative* stored value is kept,
fails the `boxesQty > 0` guard, and yields `contributionPerBox = 0`; a
positive value divides normally. -/
theorem c7_boxes_qty_default (o : OrderRec) (floor : ℚ) :
    ((o.boxes_qty = none ∨ o.boxes_qty = some 0) →
      (calculateOrderMetrics o floor).contributionPerBox
        = (calculateOrderMetrics o floor).actualBaseline)
  ∧ (∀ n : Int, o.boxes_qty = some n → n < 0 →
      (calculateOrderMetrics o floor).contributionPerBox = 0)
  ∧ (∀ n : Int, o.boxes_qty = some n → 0 < n →
      (calculateOrderMetrics o floor).contributionPerBox
        = (calculateOrderMetrics o floor).actualBaseline / (n : ℚ)) := by
  refine ⟨?_, ?_, ?_⟩
  · rintro (h | h) <;> simp [calculateOrderMetrics, jsOrZ, h]
  · intro n h hn
    have h0 : n ≠ 0 := by omega
    have hng : ¬ (0 : Int) < n := by omega
    simp [calculateOrderMetrics, jsOrZ, h, h0, hng]
  · intro n h hn
    have h0 : n ≠ 0 := by omega
    simp [calculateOrderMetrics, jsOrZ, h, h0, hn]

/-- C7 witness: the missing-quantity branch at a concrete order. -/
theorem c7_witness :
    (calculateOrderMetrics { scenarioOrder with boxes_qty := none } 700).contributionPerBox
      = (calculateOrderMetrics { scenarioOrder with boxes_qty := none } 700).actualBaseline :=
  (c7_boxes_qty_default { scenarioOrder with boxes_qty := none } 700).1 (Or.inl rfl)

/-- The in-window production rows of a fiscal month (the `monthProduction`
filter of `aggregateProductionMetrics`). -/
def monthProduction (productionData : List ProductionRec) (r : DateRange) :
    List ProductionRec :=
  productionData.filter (fun prod => inRange r prod.production_date)

/-- The `boxesBuilt` sum of `aggregateProductionMetrics`. -/
def monthBoxesBuilt (productionData : List ProductionRec) (r : DateRange) : Int :=
  (monthProduction productionData r).foldl (fun s prod => s + jsOrZ prod.boxes_built 0) 0

/-- The `boxesOverCost` sum of `aggregateProductionMetrics`. -/
def monthBoxesOverCost (productionData : List ProductionRec) (r : DateRange) : Int :=
  (monthProduction productionData r).foldl (fun s prod => s + jsOrZ prod.boxes_over_cost 0) 0

/-- The §8 scenario production batch: 20 boxes built, 2 over cost. -/
def scenarioBatch : ProductionRec :=
  { production_date := ⟨2025, 7, 10⟩
    boxes_built := some 20
    boxes_over_cost := some 2
    rework_boxes := some 0
    over_cost_reasons_json := none }

/-- A settings row with every column null. -/
def emptySettings : Settings :=
  { baseline_floor_per_box := none
    yearly_box_target := none
    rag_amber_floor_pct := none
    monthly_box_targets_json := none
    install_capacity_high_season_per_week := none
    fy_start_month := none }

/-- C6: `aggregateProductionMetrics` computes `costCompliancePct` as
`(boxesBuilt − boxesOverCost) / boxesBuilt × 100` over the batches in the
fiscal-month window and `100` when `boxesBuilt` is 0;
`getCostComplianceRAG` is green at ≥ 95, amber on [90, 95) (the 90
boundary inclusive to amber/watch) and red below 90; the scenario month
(20 built, 2 over cost) yields exactly 90 and amber (Watch). -/
theorem c6_cost_compliance :
    (∀ (productionData : List ProductionRec) (orders : List OrderRec) (settings : Settings)
        (fyLabel fyMonth : String) (out : ProductionMetrics),
      aggregateProductionMetrics productionData orders settings fyLabel fyMonth = some out →
      ∃ r, getFYDateRange fyLabel fyMonth = some r
        ∧ (0 < monthBoxesBuilt productionData r →
            out.costCompliancePct
              = ((monthBoxesBuilt productionData r - monthBoxesOverCost productionData r : Int) : ℚ)
                  / (monthBoxesBuilt productionData r : ℚ) * 100)
        ∧ (¬ 0 < monthBoxesBuilt productionData r → out.costCompliancePct = 100))
  ∧ (∀ pct : ℚ,
      (95 ≤ pct → getCostComplianceRAG pct = RAGStatus.green)
        ∧ (90 ≤ pct → pct < 95 → getCostComplianceRAG pct = RAGStatus.amber)
        ∧ (pct < 90 → getCostComplianceRAG pct = RAGStatus.red))
  ∧ (∃ out,
      aggregateProductionMetrics [scenarioBatch] [] emptySettings (fyLabelStr 2025 2026) "Jul"
          = some out
        ∧ out.costCompliancePct = 90
        ∧ getCostComplianceRAG out.costCompliancePct = RAGStatus.amber
        ∧ formatStatusText out.costCompliancePct 100 RAGStatus.amber = "Watch") := by
  refine ⟨?_, ?_, ?_⟩
  · intro productionData orders settings fyLabel fyMonth out h
    unfold aggregateProductionMetrics at h
    rcases hr : getFYDateRange fyLabel fyMonth with _ | r
    · rw [hr] at h
      cases h
    · rw [hr] at h
      injection h with he
      subst he
      refine ⟨r, rfl, ?_, ?_⟩
      · intro h0
        show (if 0 < monthBoxesBuilt productionData r then
            ((monthBoxesBuilt productionData r - monthBoxesOverCost productionData r : Int) : ℚ)
              / (monthBoxesBuilt productionData r : ℚ) * 100 else 100)
          = ((monthBoxesBuilt productionData r - monthBoxesOverCost productionData r : Int) : ℚ)
              / (monthBoxesBuilt productionData r : ℚ) * 100
        rw [if_pos h0]
      · intro h0
        show (if 0 < monthBoxesBuilt productionData r then
            ((monthBoxesBuilt productionData r - monthBoxesOverCost productionData r : Int) : ℚ)
              / (monthBoxesBuilt productionData r : ℚ) * 100 else 100)
          = 100
        rw [if_neg h0]
  · intro pct
    refine ⟨fun h => ?_, fun h1 h2 => ?_, fun h => ?_⟩
    · simp [getCostComplianceRAG, h]
    · simp only [getCostComplianceRAG, ge_iff_le]
      rw [if_neg (by exact not_le.mpr h2), if_pos (by exact h1)]
    · simp only [getCostComplianceRAG, ge_iff_le]
      rw [if_neg (by exact not_le.mpr (lt_trans h (by norm_num))),
        if_neg (by exact not_le.mpr h)]
  · have hr : getFYDateRange (fyLabelStr 2025 2026) "Jul"
        = some ⟨⟨2025, 7, 1⟩, ⟨2025, 7, 31⟩⟩ := by
      have h := getFYDateRange_month 2025 0 (by norm_num)
      simpa [MONTH_NAMES, daysInMonth] using h
    rcases h : aggregateProductionMetrics [scenarioBatch] [] emptySettings
        (fyLabelStr 2025 2026) "Jul" with _ | out
    · unfold aggregateProductionMetrics at h
      rw [hr] at h
      cases h
    · refine ⟨out, rfl, ?_, ?_, ?_⟩ <;>
        (unfold aggregateProductionMetrics at h; rw [hr] at h;
          injection h with he; subst he;
          norm_num [scenarioBatch, inRange, dateLE, jsOrZ, getCostComplianceRAG,
            formatStatusText])

/-- C6 witness: the amber band of `getCostComplianceRAG` at the boundary
value 90. -/
theorem c6_witness : getCostComplianceRAG 90 = RAGStatus.amber :=
  (c6_cost_compliance.2.1 90).2.1 (by norm_num) (by norm_num)

/-- An order with a discount impact of 700 (RRP 2100, net 1400). -/
def impact700Order : OrderRec :=
  { order_date := ⟨2025, 7, 10⟩
    boxes_qty := some 2
    box_rrp_total := some 2100
    box_net_total := some 1400
    box_build_cost_total := some 700
    install_revenue := none
    extras_revenue := none }

/-- A settings row whose stored baseline floor is 0 and whose July box
target is 2. -/
def zeroFloorSettings : Settings :=
  { baseline_floor_per_box := some 0
    yearly_box_target := none
    rag_amber_floor_pct := none
    monthly_box_targets_json := some [("Jul", 2)]
    install_capacity_high_season_per_week := none
    fy_start_month := some 7 }

/-- C4 counterexample: with a stored baseline floor of 0 the code falls
back to the default 700 (`parseFloat(x) || 700` treats 0 as falsy), so
`discountBoxesLostTotal = 700 / 700 = 1 ≠ 0` and
`baselineTarget = 2 × 700 = 1400 ≠ 0`, contradicting the claimed zeros. -/
theorem c4_counterexample :
    ∃ out,
      aggregateSalesMetrics [impact700Order] zeroFloorSettings (fyLabelStr 2025 2026) "Jul"
          = some out
        ∧ out.discountImpactTotal = 700
        ∧ out.discountBoxesLostTotal = 1
        ∧ out.discountBoxesLostTotal ≠ 0
        ∧ out.baselineTarget = 1400
        ∧ out.baselineTarget ≠ 0 := by
  have hr : getFYDateRange (fyLabelStr 2025 2026) "Jul"
      = some ⟨⟨2025, 7, 1⟩, ⟨2025, 7, 31⟩⟩ := by
    have h := getFYDateRange_month 2025 0 (by norm_num)
    simpa [MONTH_NAMES, daysInMonth] using h
  rcases h : aggregateSalesMetrics [impact700Order] zeroFloorSettings
      (fyLabelStr 2025 2026) "Jul" with _ | out
  · unfold aggregateSalesMetrics at h
    rw [hr] at h
    cases h
  · refine ⟨out, rfl, ?_, ?_, ?_, ?_, ?_⟩ <;>
      (unfold aggregateSalesMetrics at h; rw [hr] at h;
        injection h with he; subst he;
        norm_num [impact700Order, zeroFloorSettings, inRange, dateLE, jsOrQ, jsOrZ,
          calculateOrderMetrics, getMonthlyBoxTarget])

/-- C4 (amended): `aggregateSalesMetrics` uses the *effective* floor
`parseFloat(settings.baseline_floor_per_box) || 700`: the stored value
when it parses to a non-zero number and 700 when it is missing, `NaN` or
0.  `baselineTarget = monthlyBoxTarget × effectiveFloor` always (so a
stored floor of 0 gives `monthlyBoxTarget × 700`, not 0), and
`discountBoxesLostTotal = discountImpactTotal / effectiveFloor` when the
effective floor is positive and 0 when it is negative — never the claimed
0-at-stored-0 case, which is unreachable. -/
theorem c4_sales_floor_semantics (orders : List OrderRec) (settings : Settings)
    (fyLabel fyMonth : String) (out : SalesMetrics)
    (h : aggregateSalesMetrics orders settings fyLabel fyMonth = some out) :
    out.baselineTarget
        = (getMonthlyBoxTarget settings fyMonth : ℚ) * jsOrQ settings.baseline_floor_per_box 700
  ∧ (0 < jsOrQ settings.baseline_floor_per_box 700 →
      out.discountBoxesLostTotal
        = out.discountImpactTotal / jsOrQ settings.baseline_floor_per_box 700)
  ∧ (jsOrQ settings.baseline_floor_per_box 700 ≤ 0 → out.discountBoxesLostTotal = 0)
  ∧ (settings.baseline_floor_per_box = some 0 → jsOrQ settings.baseline_floor_per_box 700 = 700) := by
  unfold aggregateSalesMetrics at h
  rcases hr : getFYDateRange fyLabel fyMonth with _ | r
  · rw [hr] at h
    cases h
  · rw [hr] at h
    injection h with he
    subst he
    refine ⟨rfl, ?_, ?_, fun h0 => by simp [jsOrQ, h0]⟩
    · intro hf
      show (if 0 < jsOrQ settings.baseline_floor_per_box 700 then _ / jsOrQ settings.baseline_floor_per_box 700 else 0) = _
      rw [if_pos hf]
    · intro hf
      show (if 0 < jsOrQ settings.baseline_floor_per_box 700 then _ / jsOrQ settings.baseline_floor_per_box 700 else 0) = 0
      rw [if_neg (not_lt.mpr hf)]

/-- C4 witness: the positive-floor branch at a concrete aggregation. -/
theorem c4_witness :
    ∃ out, aggregateSalesMetrics [impact700Order] emptySettings (fyLabelStr 2025 2026) "Jul"
        = some out
      ∧ out.discountBoxesLostTotal = out.discountImpactTotal / jsOrQ emptySettings.baseline_floor_per_box 700 := by
  rcases h : aggregateSalesMetrics [impact700Order] emptySettings
      (fyLabelStr 2025 2026) "Jul" with _ | out
  · have hr : getFYDateRange (fyLabelStr 2025 2026) "Jul"
        = some ⟨⟨2025, 7, 1⟩, ⟨2025, 7, 31⟩⟩ := by
      have h2 := getFYDateRange_month 2025 0 (by norm_num)
      simpa [MONTH_NAMES, daysInMonth] using h2
    unfold aggregateSalesMetrics at h
    rw [hr] at h
    cases h
  · exact ⟨out, rfl,
      (c4_sales_floor_semantics [impact700Order] emptySettings (fyLabelStr 2025 2026) "Jul"
        out h).2.1 (by norm_num [emptySettings, jsOrQ])⟩

/-- C1: for every calendar date `d`, `getFYMonth d` is one of the twelve
configured month names, and the range
`getFYDateRange((getFYForDate d).label, getFYMonth d)` resolves and
contains `d` at day granularity. -/
theorem c1_fy_month_range_contains (d : SimpleDate) (hv : ValidDate d) :
    getFYMonth d ∈ MONTH_NAMES
  ∧ ∃ r, getFYDateRange (getFYForDate d).label (getFYMonth d) = some r
      ∧ dateLE r.start d ∧ dateLE d r.endD := by
  obtain ⟨y, m, dd⟩ := d
  obtain ⟨hy, hm1, hm2, hd1, hd2⟩ := hv
  simp only at hy hm1 hm2 hd1 hd2
  have hy1 : y - 1 + 1 = y := by omega
  interval_cases m
  · have hlem := getFYDateRange_month (y - 1) 6 (by norm_num)
    rw [hy1] at hlem
    exact ⟨by simp [getFYMonth, MONTH_NAMES], _, hlem, by simp [dateLE]; omega, by simp [dateLE]; omega⟩
  · have hlem := getFYDateRange_month (y - 1) 7 (by norm_num)
    rw [hy1] at hlem
    exact ⟨by simp [getFYMonth, MONTH_NAMES], _, hlem, by simp [dateLE]; omega, by simp [dateLE]; omega⟩
  · have hlem := getFYDateRange_month (y - 1) 8 (by norm_num)
    rw [hy1] at hlem
    exact ⟨by simp [getFYMonth, MONTH_NAMES], _, hlem, by simp [dateLE]; omega, by simp [dateLE]; omega⟩
  · have hlem := getFYDateRange_month (y - 1) 9 (by norm_num)
    rw [hy1] at hlem
    exact ⟨by simp [getFYMonth, MONTH_NAMES], _, hlem, by simp [dateLE]; omega, by simp [dateLE]; omega⟩
  · have hlem := getFYDateRange_month (y - 1) 10 (by norm_num)
    rw [hy1] at hlem
    exact ⟨by simp [getFYMonth, MONTH_NAMES], _, hlem, by simp [dateLE]; omega, by simp [dateLE]; omega⟩
  · have hlem := getFYDateRange_month (y - 1) 11 (by norm_num)
    rw [hy1] at hlem
    exact ⟨by simp [getFYMonth, MONTH_NAMES], _, hlem, by simp [dateLE]; omega, by simp [dateLE]; omega⟩
  · exact ⟨by simp [getFYMonth, MONTH_NAMES], _, getFYDateRange_month y 0 (by norm_num),
      by simp [dateLE]; omega, by simp [dateLE]; omega⟩
  · exact ⟨by simp [getFYMonth, MONTH_NAMES], _, getFYDateRange_month y 1 (by norm_num),
      by simp [dateLE]; omega, by simp [dateLE]; omega⟩
  · exact ⟨by simp [getFYMonth, MONTH_NAMES], _, getFYDateRange_month y 2 (by norm_num),
      by simp [dateLE]; omega, by simp [dateLE]; omega⟩
  · exact ⟨by simp [getFYMonth, MONTH_NAMES], _, getFYDateRange_month y 3 (by norm_num),
      by simp [dateLE]; omega, by simp [dateLE]; omega⟩
  · exact ⟨by simp [getFYMonth, MONTH_NAMES], _, getFYDateRange_month y 4 (by norm_num),
      by simp [dateLE]; omega, by simp [dateLE]; omega⟩
  · exact ⟨by simp [getFYMonth, MONTH_NAMES], _, getFYDateRange_month y 5 (by norm_num),
      by simp [dateLE]; omega, by simp [dateLE]; omega⟩

/-- C1 witness: a concrete date (14 Feb 2026, inside FY 2025/26). -/
theorem c1_witness :
    getFYMonth ⟨2026, 2, 14⟩ ∈ MONTH_NAMES
  ∧ ∃ r, getFYDateRange (getFYForDate ⟨2026, 2, 14⟩).label (getFYMonth ⟨2026, 2, 14⟩) = some r
      ∧ dateLE r.start ⟨2026, 2, 14⟩ ∧ dateLE ⟨2026, 2, 14⟩ r.endD :=
  c1_fy_month_range_contains ⟨2026, 2, 14⟩ (by decide)

/-- C2: for every fiscal-year start year `y` (i.e. every well-formed label
`"y/.."`, which covers every label `getAllFYs` produces), the twelve
`getFYDateRange` ranges run from the first to the true last day of their
calendar month (leap-aware via `daysInMonth`), are contiguous in
fiscal-month order (`nextDay` of one range's end is the next range's
start), start at the fiscal year's 1 July and end at its 30 June as
computed by `getFYForDate`, are pairwise non-overlapping, and their union
is exactly the fiscal year's span. -/
theorem c2_fy_ranges_partition (y : Nat) :
    (∀ k, k < 12 →
      ∃ r, getFYDateRange (fyLabelStr y (y + 1)) (MONTH_NAMES.getD k "") = some r
        ∧ r.start.day = 1
        ∧ r.endD = ⟨r.start.year, r.start.month, daysInMonth r.start.year r.start.month⟩)
  ∧ (∀ k r r', k + 1 < 12 →
      getFYDateRange (fyLabelStr y (y + 1)) (MONTH_NAMES.getD k "") = some r →
      getFYDateRange (fyLabelStr y (y + 1)) (MONTH_NAMES.getD (k + 1) "") = some r' →
      nextDay r.endD = r'.start)
  ∧ (∀ r, getFYDateRange (fyLabelStr y (y + 1)) (MONTH_NAMES.getD 0 "") = some r →
      r.start = (getFYForDate ⟨y, 7, 1⟩).start)
  ∧ (∀ r, getFYDateRange (fyLabelStr y (y + 1)) (MONTH_NAMES.getD 11 "") = some r →
      r.endD = (getFYForDate ⟨y, 7, 1⟩).endD)
  ∧ (∀ (d : SimpleDate) (k j : Nat) (r r' : DateRange), k < 12 → j < 12 →
      getFYDateRange (fyLabelStr y (y + 1)) (MONTH_NAMES.getD k "") = some r →
      getFYDateRange (fyLabelStr y (y + 1)) (MONTH_NAMES.getD j "") = some r' →
      dateLE r.start d → dateLE d r.endD → dateLE r'.start d → dateLE d r'.endD → k = j)
  ∧ (∀ d : SimpleDate, ValidDate d →
      ((∃ k r, k < 12
          ∧ getFYDateRange (fyLabelStr y (y + 1)) (MONTH_NAMES.getD k "") = some r
          ∧ dateLE r.start d ∧ dateLE d r.endD)
        ↔ (dateLE (getFYForDate ⟨y, 7, 1⟩).start d
            ∧ dateLE d (getFYForDate ⟨y, 7, 1⟩).endD)))
  ∧ (∀ (now : SimpleDate) (yearsBack : Nat) (L : String),
      L ∈ getAllFYs now yearsBack → ∃ z, L = fyLabelStr z (z + 1)) := by
  refine ⟨?_, ?_, ?_, ?_, ?_, ?_, ?_⟩
  · intro k hk
    rw [getFYDateRange_month y k hk]
    exact ⟨_, rfl, rfl, rfl⟩
  · intro k r r' hk h h'
    rw [getFYDateRange_month y k (by omega)] at h
    rw [getFYDateRange_month y (k + 1) (by omega)] at h'
    injection h with he
    injection h' with he'
    subst he
    subst he'
    have hk11 : k < 11 := by omega
    have hk0 : 0 ≤ k := Nat.zero_le k
    interval_cases k <;> simp [nextDay, daysInMonth]
  · intro r h
    rw [getFYDateRange_month y 0 (by norm_num)] at h
    injection h with he
    subst he
    rfl
  · intro r h
    rw [getFYDateRange_month y 11 (by norm_num)] at h
    injection h with he
    subst he
    rfl
  · intro d k j r r' hk hj h h' h1 h2 h3 h4
    rw [getFYDateRange_month y k hk] at h
    rw [getFYDateRange_month y j hj] at h'
    injection h with he
    injection h' with he'
    subst he
    subst he'
    obtain ⟨hy1, hm1, _, _⟩ := mem_month_range h1 h2
    obtain ⟨hy2, hm2, _, _⟩ := mem_month_range h3 h4
    by_cases hk6 : k < 6 <;> by_cases hj6 : j < 6 <;>
      simp [hk6, hj6] at hy1 hm1 hy2 hm2 <;> omega
  · rintro ⟨Y, M, D⟩ ⟨hYv, hm1, hm2, hd1, hd2⟩
    simp only at hYv hm1 hm2 hd1 hd2
    have hs : (getFYForDate ⟨y, 7, 1⟩).start = ⟨y, 7, 1⟩ := rfl
    have he2 : (getFYForDate ⟨y, 7, 1⟩).endD = ⟨y + 1, 6, 30⟩ := rfl
    rw [hs, he2]
    constructor
    · rintro ⟨k, r, hk, h, h1, h2⟩
      rw [getFYDateRange_month y k hk] at h
      injection h with he
      subst he
      obtain ⟨hYe, hMe, hD1, hD2⟩ := mem_month_range h1 h2
      interval_cases k <;> simp_all [dateLE, daysInMonth]
    · rintro ⟨hlo, hhi⟩
      interval_cases M
      · have hYe : Y = y + 1 := by simp [dateLE] at hlo hhi; omega
        subst hYe
        exact ⟨6, _, by norm_num, getFYDateRange_month y 6 (by norm_num),
          by simp [dateLE]; omega, by simp [dateLE]; omega⟩
      · have hYe : Y = y + 1 := by simp [dateLE] at hlo hhi; omega
        subst hYe
        exact ⟨7, _, by norm_num, getFYDateRange_month y 7 (by norm_num),
          by simp [dateLE]; omega, by simp [dateLE]; omega⟩
      · have hYe : Y = y + 1 := by simp [dateLE] at hlo hhi; omega
        subst hYe
        exact ⟨8, _, by norm_num, getFYDateRange_month y 8 (by norm_num),
          by simp [dateLE]; omega, by simp [dateLE]; omega⟩
      · have hYe : Y = y + 1 := by simp [dateLE] at hlo hhi; omega
        subst hYe
        exact ⟨9, _, by norm_num, getFYDateRange_month y 9 (by norm_num),
          by simp [dateLE]; omega, by simp [dateLE]; omega⟩
      · have hYe : Y = y + 1 := by simp [dateLE] at hlo hhi; omega
        subst hYe
        exact ⟨10, _, by norm_num, getFYDateRange_month y 10 (by norm_num),
          by simp [dateLE]; omega, by simp [dateLE]; omega⟩
      · have hYe : Y = y + 1 := by simp [dateLE] at hlo hhi; omega
        subst hYe
        exact ⟨11, _, by norm_num, getFYDateRange_month y 11 (by norm_num),
          by simp [dateLE]; omega, by simp [dateLE]; omega⟩
      · have hYe : Y = y := by simp [dateLE] at hlo hhi; omega
        subst Y
        exact ⟨0, _, by norm_num, getFYDateRange_month y 0 (by norm_num),
          by simp [dateLE]; omega, by simp [dateLE]; omega⟩
      · have hYe : Y = y := by simp [dateLE] at hlo hhi; omega
        subst Y
        exact ⟨1, _, by norm_num, getFYDateRange_month y 1 (by norm_num),
          by simp [dateLE]; omega, by simp [dateLE]; omega⟩
      · have hYe : Y = y := by simp [dateLE] at hlo hhi; omega
        subst Y
        exact ⟨2, _, by norm_num, getFYDateRange_month y 2 (by norm_num),
          by simp [dateLE]; omega, by simp [dateLE]; omega⟩
      · have hYe : Y = y := by simp [dateLE] at hlo hhi; omega
        subst Y
        exact ⟨3, _, by norm_num, getFYDateRange_month y 3 (by norm_num),
          by simp [dateLE]; omega, by simp [dateLE]; omega⟩
      · have hYe : Y = y := by simp [dateLE] at hlo hhi; omega
        subst Y
        exact ⟨4, _, by norm_num, getFYDateRange_month y 4 (by norm_num),
          by simp [dateLE]; omega, by simp [dateLE]; omega⟩
      · have hYe : Y = y := by simp [dateLE] at hlo hhi; omega
        subst Y
        exact ⟨5, _, by norm_num, getFYDateRange_month y 5 (by norm_num),
          by simp [dateLE]; omega, by simp [dateLE]; omega⟩
  · intro now yearsBack L hL
    unfold getAllFYs at hL
    simp only [List.mem_map, List.mem_range] at hL
    obtain ⟨j, _, rfl⟩ := hL
    exact ⟨_, rfl⟩

/-- C2 witness: the February range of FY 2025/26 through the general
partition theorem. -/
theorem c2_witness :
    ∃ r, getFYDateRange (fyLabelStr 2025 (2025 + 1)) (MONTH_NAMES.getD 7 "") = some r
      ∧ r.start.day = 1
      ∧ r.endD = ⟨r.start.year, r.start.month, daysInMonth r.start.year r.start.month⟩ :=
  (c2_fy_ranges_partition 2025).1 7 (by norm_num)

/-! ## Per-row error bookkeeping for the import loops -/

/-- The error messages the order-import loop records for the row at
0-based index `i` (read off the loop body: the validator's messages when
validation fails, the lookup-miss message when the sales-rep email does
not resolve, nothing otherwise). -/
def orderRowErrors (users : List (String × Int)) (i : Nat) (row : OrderCsvRow) :
    List String :=
  let rowNumber := i + 2
  let validation := validateOrderRow row rowNumber
  if !validation.valid then validation.errors
  else
    match row.sales_rep_email with
    | some e =>
      match users.lookup e with
      | some _ => []
      | none => ["Row " ++ natToString rowNumber ++ ": Sales rep email not found: " ++ e]
    | none => []

/-- The error messages the production-import loop records for the row at
0-based index `i`. -/
def productionRowErrors (i : Nat) (row : ProductionCsvRow) : List String :=
  let rowNumber := i + 2
  let validation := validateProductionRow row rowNumber
  if !validation.valid then validation.errors
  else
    match row.over_cost_reasons_json with
    | ReasonsCell.badJson =>
      ["Row " ++ natToString rowNumber ++ ": Invalid JSON in over_cost_reasons_json"]
    | _ => []

/-- The concatenated error messages of the order rows starting at index
`n`. -/
def orderRowsErrorsFrom (users : List (String × Int)) (n : Nat) :
    List OrderCsvRow → List String
  | [] => []
  | row :: rest => orderRowErrors users n row ++ orderRowsErrorsFrom users (n + 1) rest

def productionRowsErrorsFrom (n : Nat) : List ProductionCsvRow → List String
  | [] => []
  | row :: rest => productionRowErrors n row ++ productionRowsErrorsFrom (n + 1) rest

theorem processOrderRow_spec (users : List (String × Int)) (acc : OrderImportResult)
    (i : Nat) (row : OrderCsvRow) :
    (processOrderRow users acc i row).errors = acc.errors ++ orderRowErrors users i row
  ∧ (processOrderRow users acc i row).success + (processOrderRow users acc i row).failed
      = acc.success + acc.failed + 1
  ∧ (processOrderRow users acc i row).total = acc.total := by
  unfold processOrderRow orderRowErrors
  by_cases hv : (validateOrderRow row (i + 2)).valid
  · simp only [hv, Bool.not_true, Bool.false_eq_true, if_false]
    cases he : row.sales_rep_email with
    | none =>
      refine ⟨by simp [he], ?_, by simp [he]⟩
      simp [he]
      omega
    | some e =>
      cases hu : users.lookup e with
      | none =>
        refine ⟨by simp [he, hu], ?_, by simp [he, hu]⟩
        simp [he, hu]
        omega
      | some uid =>
        refine ⟨by simp [he, hu], ?_, by simp [he, hu]⟩
        simp [he, hu]
        omega
  · simp only [Bool.not_eq_true] at hv
    simp [hv]
    omega

theorem processProductionRow_spec (acc : ProductionImportResult)
    (i : Nat) (row : ProductionCsvRow) :
    (processProductionRow acc i row).errors = acc.errors ++ productionRowErrors i row
  ∧ (processProductionRow acc i row).success + (processProductionRow acc i row).failed
      = acc.success + acc.failed + 1
  ∧ (processProductionRow acc i row).total = acc.total := by
  unfold processProductionRow productionRowErrors
  by_cases hv : (validateProductionRow row (i + 2)).valid
  · simp only [hv, Bool.not_true, Bool.false_eq_true, if_false]
    cases hc : row.over_cost_reasons_json <;> simp <;> omega
  · simp only [Bool.not_eq_true] at hv
    simp [hv]
    omega

theorem orderFold_spec (users : List (String × Int)) (rows : List OrderCsvRow) :
    ∀ (n : Nat) (acc : OrderImportResult),
    ((rows.enumFrom n).foldl (fun a p => processOrderRow users a p.1 p.2) acc).errors
        = acc.errors ++ orderRowsErrorsFrom users n rows
    ∧ ((rows.enumFrom n).foldl (fun a p => processOrderRow users a p.1 p.2) acc).success
        + ((rows.enumFrom n).foldl (fun a p => processOrderRow users a p.1 p.2) acc).failed
        = acc.success + acc.failed + rows.length
    ∧ ((rows.enumFrom n).foldl (fun a p => processOrderRow users a p.1 p.2) acc).total
        = acc.total := by
  induction rows with
  | nil => intro n acc; simp [orderRowsErrorsFrom, List.enumFrom]
  | cons row rest ih =>
    intro n acc
    have hstep := processOrderRow_spec users acc n row
    have hrec := ih (n + 1) (processOrderRow users acc n row)
    simp only [List.enumFrom, List.foldl_cons] at *
    refine ⟨?_, ?_, ?_⟩
    · rw [hrec.1, hstep.1, orderRowsErrorsFrom, List.append_assoc]
    · rw [hrec.2.1] at *
      simp [List.length_cons]
      omega
    · rw [hrec.2.2, hstep.2.2]

theorem productionFold_spec (rows : List ProductionCsvRow) :
    ∀ (n : Nat) (acc : ProductionImportResult),
    ((rows.enumFrom n).foldl (fun a p => processProductionRow a p.1 p.2) acc).errors
        = acc.errors ++ productionRowsErrorsFrom n rows
    ∧ ((rows.enumFrom n).foldl (fun a p => processProductionRow a p.1 p.2) acc).success
        + ((rows.enumFrom n).foldl (fun a p => processProductionRow a p.1 p.2) acc).failed
        = acc.success + acc.failed + rows.length
    ∧ ((rows.enumFrom n).foldl (fun a p => processProductionRow a p.1 p.2) acc).total
        = acc.total := by
  induction rows with
  | nil => intro n acc; simp [productionRowsErrorsFrom, List.enumFrom]
  | cons row rest ih =>
    intro n acc
    have hstep := processProductionRow_spec acc n row
    have hrec := ih (n + 1) (processProductionRow acc n row)
    simp only [List.enumFrom, List.foldl_cons] at *
    refine ⟨?_, ?_, ?_⟩
    · rw [hrec.1, hstep.1, productionRowsErrorsFrom, List.append_assoc]
    · rw [hrec.2.1] at *
      simp [List.length_cons]
      omega
    · rw [hrec.2.2, hstep.2.2]

/-- Membership of a row's own errors in the whole import's error list. -/
theorem orderRowsErrorsFrom_mem (users : List (String × Int)) :
    ∀ (rows : List OrderCsvRow) (n i : Nat) (row : OrderCsvRow),
      rows.get? i = some row →
      ∀ msg ∈ orderRowErrors users (n + i) row, msg ∈ orderRowsErrorsFrom users n rows := by
  intro rows
  induction rows with
  | nil => intro n i row h; cases h
  | cons first rest ih =>
    intro n i row h msg hmsg
    cases i with
    | zero =>
      simp only [List.get?] at h
      injection h with h
      subst h
      simp only [orderRowsErrorsFrom, List.mem_append]
      exact Or.inl (by simpa using hmsg)
    | succ j =>
      simp only [List.get?] at h
      have := ih (n + 1) j row h msg (by
        have harith : n + 1 + j = n + (j + 1) := by omega
        rw [harith]
        exact hmsg)
      simp only [orderRowsErrorsFrom, List.mem_append]
      exact Or.inr this

theorem natToString_two : natToString 2 = "2" := by
  unfold natToString natChars
  rw [if_neg (by norm_num)]
  rw [Nat.digits_def' (b := 10) (by norm_num) (by norm_num)]
  norm_num
  decide

theorem validateOrderRow_msgForm (row : OrderCsvRow) (n : Nat) (msg : String)
    (h : msg ∈ (validateOrderRow row n).errors) :
    ∃ e, msg = "Row " ++ natToString n ++ ": " ++ e := by
  simp only [validateOrderRow, List.mem_map] at h
  obtain ⟨err, _, rfl⟩ := h
  exact ⟨err, rfl⟩

theorem validateProductionRow_msgForm (row : ProductionCsvRow) (n : Nat) (msg : String)
    (h : msg ∈ (validateProductionRow row n).errors) :
    ∃ e, msg = "Row " ++ natToString n ++ ": " ++ e := by
  simp only [validateProductionRow, List.mem_map] at h
  obtain ⟨err, _, rfl⟩ := h
  exact ⟨err, rfl⟩

/-- Refactor a literal that starts with `": "` out of an appended message
(string append is associative on the underlying character lists). -/
theorem string_colon_split (a b lit tail : String) (h : lit.data = (": " ++ tail).data) :
    a ++ b ++ lit = a ++ b ++ ": " ++ tail := by
  apply String.ext
  simp only [String.data_append, h, List.append_assoc]

theorem string_colon_split_append (a b lit tail e : String)
    (h : lit.data = (": " ++ tail).data) :
    a ++ b ++ lit ++ e = a ++ b ++ ": " ++ (tail ++ e) := by
  apply String.ext
  simp only [String.data_append, h, List.append_assoc]

theorem orderRowErrors_msgForm (users : List (String × Int)) (i : Nat) (row : OrderCsvRow)
    (msg : String) (h : msg ∈ orderRowErrors users i row) :
    ∃ e, msg = "Row " ++ natToString (i + 2) ++ ": " ++ e := by
  unfold orderRowErrors at h
  by_cases hv : (validateOrderRow row (i + 2)).valid
  · simp only [hv, Bool.not_true, Bool.false_eq_true, if_false] at h
    cases he : row.sales_rep_email with
    | none => simp [he] at h
    | some e =>
      cases hu : users.lookup e with
      | none =>
        simp only [he, hu, List.mem_singleton] at h
        subst h
        exact ⟨"Sales rep email not found: " ++ e,
          string_colon_split_append _ _ _ _ _ (by decide)⟩
      | some uid => simp [he, hu] at h
  · simp only [Bool.not_eq_true] at hv
    rw [if_pos (by rw [hv]; rfl)] at h
    exact validateOrderRow_msgForm row (i + 2) msg h

theorem productionRowErrors_msgForm (i : Nat) (row : ProductionCsvRow)
    (msg : String) (h : msg ∈ productionRowErrors i row) :
    ∃ e, msg = "Row " ++ natToString (i + 2) ++ ": " ++ e := by
  unfold productionRowErrors at h
  by_cases hv : (validateProductionRow row (i + 2)).valid
  · simp only [hv, Bool.not_true, Bool.false_eq_true, if_false] at h
    cases hc : row.over_cost_reasons_json <;>
      first
        | (simp only [hc, List.mem_singleton] at h
           subst h
           exact ⟨"Invalid JSON in over_cost_reasons_json",
             string_colon_split _ _ _ _ (by decide)⟩)
        | simp [hc] at h
  · simp only [Bool.not_eq_true] at hv
    rw [if_pos (by rw [hv]; rfl)] at h
    exact validateProductionRow_msgForm row (i + 2) msg h

/-- The `users` table of the worked example. -/
def demoUsers : List (String × Int) := [("alice@example.com", 1)]

/-- An order CSV row with `boxes_qty` missing. -/
def rowMissingQty : OrderCsvRow :=
  { order_date := some ⟨2025, 1, 15⟩
    order_ref := none
    sales_rep_email := none
    boxes_qty := none
    box_rrp_total := some 2800
    box_net_total := some 2600
    box_build_cost_total := some 1400
    install_revenue := none
    extras_revenue := none
    notes := none }

/-- The same row with a valid quantity. -/
def rowGood : OrderCsvRow := { rowMissingQty with boxes_qty := some 2 }

/-- C9: both import loops collect every validation failure instead of
short-circuiting — the final error list is exactly the concatenation of
each row's own error messages in row order, every row is processed
(success + failed = total = number of rows), any failed row's messages all
appear in the final list, and every message carries the row number under
the single `i + 2` convention (0-based data row `i`, header = row 1) for
order rows and production rows alike; in the worked example the row
missing `boxes_qty` is reported as row 2 with the missing-field reason and
the following valid row is still imported. -/
theorem c9_errors_collected_row_numbers :
    (∀ (users : List (String × Int)) (rows : List OrderCsvRow),
        (processOrdersImport users rows).errors = orderRowsErrorsFrom users 0 rows
      ∧ (processOrdersImport users rows).total = rows.length
      ∧ (processOrdersImport users rows).success + (processOrdersImport users rows).failed
          = rows.length)
  ∧ (∀ rows : List ProductionCsvRow,
        (processProductionImport rows).errors = productionRowsErrorsFrom 0 rows
      ∧ (processProductionImport rows).total = rows.length
      ∧ (processProductionImport rows).success + (processProductionImport rows).failed
          = rows.length)
  ∧ (∀ (users : List (String × Int)) (rows : List OrderCsvRow) (i : Nat) (row : OrderCsvRow),
        rows.get? i = some row →
        ∀ msg ∈ orderRowErrors users i row, msg ∈ (processOrdersImport users rows).errors)
  ∧ (∀ (users : List (String × Int)) (i : Nat) (row : OrderCsvRow) (msg : String),
        msg ∈ orderRowErrors users i row →
        ∃ e, msg = "Row " ++ natToString (i + 2) ++ ": " ++ e)
  ∧ (∀ (i : Nat) (row : ProductionCsvRow) (msg : String),
        msg ∈ productionRowErrors i row →
        ∃ e, msg = "Row " ++ natToString (i + 2) ++ ": " ++ e)
  ∧ ((processOrdersImport demoUsers [rowMissingQty, rowGood]).errors
        = ["Row 2: boxes_qty is required", "Row 2: boxes_qty must be a positive integer"]
    ∧ (processOrdersImport demoUsers [rowMissingQty, rowGood]).success = 1
    ∧ (processOrdersImport demoUsers [rowMissingQty, rowGood]).failed = 1
    ∧ (processOrdersImport demoUsers [rowMissingQty, rowGood]).total = 2) := by
  have horders : ∀ (users : List (String × Int)) (rows : List OrderCsvRow),
      (processOrdersImport users rows).errors = orderRowsErrorsFrom users 0 rows
    ∧ (processOrdersImport users rows).total = rows.length
    ∧ (processOrdersImport users rows).success + (processOrdersImport users rows).failed
        = rows.length := by
    intro users rows
    have h0 : processOrdersImport users rows
        = (rows.enumFrom 0).foldl (fun a p => processOrderRow users a p.1 p.2)
          { total := rows.length, success := 0, failed := 0, errors := [], inserted := [] } :=
      rfl
    obtain ⟨h1, h2, h3⟩ := orderFold_spec users rows 0
      { total := rows.length, success := 0, failed := 0, errors := [], inserted := [] }
    rw [h0]
    refine ⟨by rw [h1]; simp, by rw [h3], by simp at h2; omega⟩
  refine ⟨horders, ?_, ?_, ?_, ?_, ?_⟩
  · intro rows
    have h0 : processProductionImport rows
        = (rows.enumFrom 0).foldl (fun a p => processProductionRow a p.1 p.2)
          { total := rows.length, success := 0, failed := 0, errors := [], inserted := [] } :=
      rfl
    obtain ⟨h1, h2, h3⟩ := productionFold_spec rows 0
      { total := rows.length, success := 0, failed := 0, errors := [], inserted := [] }
    rw [h0]
    refine ⟨by rw [h1]; simp, by rw [h3], by simp at h2; omega⟩
  · intro users rows i row hget msg hmsg
    rw [(horders users rows).1]
    exact orderRowsErrorsFrom_mem users rows 0 i row hget msg (by simpa using hmsg)
  · exact orderRowErrors_msgForm
  · exact productionRowErrors_msgForm
  · have herr : orderRowsErrorsFrom demoUsers 0 [rowMissingQty, rowGood]
        = ["Row " ++ natToString 2 ++ ": " ++ "boxes_qty is required",
           "Row " ++ natToString 2 ++ ": " ++ "boxes_qty must be a positive integer"] := rfl
    have hmsg1 : "Row " ++ natToString 2 ++ ": " ++ "boxes_qty is required"
        = "Row 2: boxes_qty is required" := by
      rw [natToString_two]
      decide
    have hmsg2 : "Row " ++ natToString 2 ++ ": " ++ "boxes_qty must be a positive integer"
        = "Row 2: boxes_qty must be a positive integer" := by
      rw [natToString_two]
      decide
    refine ⟨?_, rfl, rfl, rfl⟩
    rw [(horders demoUsers [rowMissingQty, rowGood]).1, herr, hmsg1, hmsg2]

/-- C9 witness: the row-number convention applied to the concrete
missing-quantity row at index 0. -/
theorem c9_witness :
    ∃ e, "Row " ++ natToString (0 + 2) ++ ": " ++ "boxes_qty is required"
      = "Row " ++ natToString (0 + 2) ++ ": " ++ e :=
  c9_errors_collected_row_numbers.2.2.2.1 demoUsers 0 rowMissingQty
    ("Row " ++ natToString (0 + 2) ++ ": " ++ "boxes_qty is required")
    (by simp [orderRowErrors, validateOrderRow, rowMissingQty])

/-- C8: exporting an order row with `formatOrdersForExport` and
re-importing the exported row as a fresh insert through the validation and
coercion path succeeds and reproduces `boxes_qty`, the three monetary
totals and the date at day granularity.  The hypotheses are the Order data
model invariants: the date is present and `boxes_qty ≥ 1` (both enforced
by the schema), and the exported sales-rep email — when non-empty — passes
the email check and resolves in the `users` table (it was produced by the
export's join against that table). -/
theorem c8_export_import_roundtrip (o : OrderDbRow) (users : List (String × Int))
    (d : SimpleDate)
    (hdate : o.order_date = some d)
    (hqty : 1 ≤ o.boxes_qty)
    (hemail : strCell o.sales_rep_email = none
      ∨ ∃ e, strCell o.sales_rep_email = some e ∧ emailRegexTest e = true
          ∧ (users.lookup e).isSome = true) :
    ∃ rec,
      processOrdersImport users [csvRowOfExport (formatOrderForExport o)]
          = { total := 1, success := 1, failed := 0, errors := [], inserted := [rec] }
        ∧ rec.boxes_qty = some o.boxes_qty
        ∧ rec.box_rrp_total = some o.box_rrp_total
        ∧ rec.box_net_total = some o.box_net_total
        ∧ rec.box_build_cost_total = some o.box_build_cost_total
        ∧ rec.order_date = some d := by
  have hnl : ¬ (o.boxes_qty < 1) := by omega
  have hval : validateOrderRow (csvRowOfExport (formatOrderForExport o)) (0 + 2)
      = { valid := true, errors := [] } := by
    rcases hemail with he | ⟨e, he, hre, hl⟩
    · simp [validateOrderRow, csvRowOfExport, formatOrderForExport, hdate, he, hnl]
    · simp [validateOrderRow, csvRowOfExport, formatOrderForExport, hdate, he, hre, hnl]
  have h0 : processOrdersImport users [csvRowOfExport (formatOrderForExport o)]
      = processOrderRow users
          { total := 1, success := 0, failed := 0, errors := [], inserted := [] } 0
          (csvRowOfExport (formatOrderForExport o)) := rfl
  rw [h0]
  rcases hemail with he | ⟨e, he, hre, hl⟩
  · simp only [processOrderRow, hval, Bool.not_true, Bool.false_eq_true, if_false,
      show (csvRowOfExport (formatOrderForExport o)).sales_rep_email = none from he]
    exact ⟨_, rfl, rfl, rfl, rfl, rfl, hdate⟩
  · obtain ⟨uid, hluid⟩ := Option.isSome_iff_exists.mp hl
    simp only [processOrderRow, hval, Bool.not_true, Bool.false_eq_true, if_false,
      show (csvRowOfExport (formatOrderForExport o)).sales_rep_email = some e from he, hluid]
    exact ⟨_, rfl, rfl, rfl, rfl, rfl, hdate⟩

/-- A concrete exported/re-imported order row. -/
def roundTripOrder : OrderDbRow :=
  { id := 7
    order_date := some ⟨2025, 1, 15⟩
    order_ref := some "ORD-001"
    sales_rep_email := some "alice@example.com"
    sales_rep_name := some "Alice Sales"
    boxes_qty := 2
    box_rrp_total := 2800
    box_net_total := 2600
    box_build_cost_total := 1400
    install_revenue := some 500
    extras_revenue := some 200
    notes := some "Sample order" }

/-- C8 witness: the round trip at a concrete order and user table. -/
theorem c8_witness :
    ∃ rec,
      processOrdersImport demoUsers [csvRowOfExport (formatOrderForExport roundTripOrder)]
          = { total := 1, success := 1, failed := 0, errors := [], inserted := [rec] }
        ∧ rec.boxes_qty = some roundTripOrder.boxes_qty
        ∧ rec.box_rrp_total = some roundTripOrder.box_rrp_total
        ∧ rec.box_net_total = some roundTripOrder.box_net_total
        ∧ rec.box_build_cost_total = some roundTripOrder.box_build_cost_total
        ∧ rec.order_date = some ⟨2025, 1, 15⟩ :=
  c8_export_import_roundtrip roundTripOrder demoUsers ⟨2025, 1, 15⟩ rfl (by decide)
    (Or.inr ⟨"alice@example.com", rfl, by decide, by decide⟩)
